import Mathlib

/-!
Verification of the BCBS 239 color-rules generator
(`tools/color_rules/code-generator.py`).

The script manipulates YAML-derived Python values (nested mappings of
scalars).  We shallowly embed those values as the inductive type `Val`:
Python `None`/`bool`/`int`/`float`/`str`/`dict` become the constructors
below, with floats modelled as rationals and strings as `List Char`.
Each Python function of the script is translated into a Lean definition
of the same name (snake_case, leading underscores dropped); fallible
code (functions that may raise) returns `Except PyErr`.
-/

/-- Python strings are modelled as lists of characters. -/
abbrev Str := List Char

/-- Shorthand turning a Lean string literal into the `Str` model. -/
def chars (s : String) : Str := s.toList

/-- A Python value as produced by the YAML deserializer: `None`, `bool`,
`int`, `float` (modelled as a rational), `str`, or `dict` with string
keys in insertion order. -/
inductive Val where
  | vnone : Val
  | vbool : Bool → Val
  | vint : Int → Val
  | vfloat : ℚ → Val
  | vstr : Str → Val
  | vdict : List (Str × Val) → Val

/-- First-match association-list lookup, the model of Python dict
indexing (keys of a Python dict are unique, so first match is the
match). -/
def lookupKey : List (Str × Val) → Str → Option Val
  | [], _ => Option.none
  | (k', v) :: rest, k => if k' = k then some v else lookupKey rest k

/-- Membership test for a dict key, the model of Python `k in d`. -/
def containsKeyB (es : List (Str × Val)) (k : Str) : Bool :=
  (lookupKey es k).isSome

/-- Python truthiness of a value (`bool(v)`). -/
def truthy : Val → Bool
  | .vnone => false
  | .vbool b => b
  | .vint n => decide (n ≠ 0)
  | .vfloat q => decide (q ≠ 0)
  | .vstr s => decide (s ≠ [])
  | .vdict es => !es.isEmpty

/-- Python `a or b` (value-returning short-circuit disjunction). -/
def pyOr (a b : Val) : Val := if truthy a then a else b

/-- The empty Python dict `{}`. -/
def emptyDict : Val := Val.vdict []

/-- Python `d.get(k, default)`.  In the script this is only ever applied
to values already coerced to mappings by a preceding `or {}`, so the
non-dict branch (an `AttributeError` in Python) is left outside the
model and returns the default. -/
def vgetDef (v : Val) (k : Str) (d : Val) : Val :=
  match v with
  | .vdict es => (lookupKey es k).getD d
  | _ => d

/-- Python `d.get(k)` (default `None`). -/
def vget (v : Val) (k : Str) : Val := vgetDef v k Val.vnone

/-- Python `isinstance(v, dict)`. -/
def isDict : Val → Bool
  | .vdict _ => true
  | _ => false

/-- Entries of a mapping value (empty for non-mappings). -/
def asEntries : Val → List (Str × Val)
  | .vdict es => es
  | _ => []

/-- String payload of a value.  The script only reads string fields this
way after an `or ""` guard, so the non-string branch (a Python
`AttributeError` on `.strip()`) is outside the model. -/
def asStr : Val → Str
  | .vstr s => s
  | _ => []

/-- Characters Python `str.strip()` removes. -/
def isPyWS (c : Char) : Bool :=
  c = ' ' || c = '\t' || c = '\n' || c = '\r' || c = '\x0b' || c = '\x0c'

/-- Leading-whitespace removal. -/
def stripL (s : Str) : Str := s.dropWhile isPyWS

/-- Trailing-whitespace removal. -/
def stripR (s : Str) : Str := ((s.reverse).dropWhile isPyWS).reverse

/-- Python `s.strip()`. -/
def pyStrip (s : Str) : Str := stripR (stripL s)

/-- Core of `_clean_label_it` on an (already string) value: strip, and
if the stripped string contains `(` and ends with `)`, keep what
precedes the first `(` (stripped again); otherwise return the stripped
string. -/
def cleanLabelStr (s : Str) : Str :=
  let t := pyStrip s
  if '(' ∈ t ∧ t.getLast? = some ')' then
    pyStrip (t.takeWhile (fun c => c ≠ '('))
  else t

/-- The script's `_clean_label_it`: `(value or "").strip()` followed by
the parenthetical-gloss stripping above. -/
def clean_label_it (v : Val) : Str :=
  cleanLabelStr (asStr (pyOr v (Val.vstr [])))

/-- Python's decimal digit characters. -/
def pyDigitChar (m : Nat) : Char :=
  if m = 1 then '1' else if m = 2 then '2' else if m = 3 then '3'
  else if m = 4 then '4' else if m = 5 then '5' else if m = 6 then '6'
  else if m = 7 then '7' else if m = 8 then '8' else if m = 9 then '9' else '0'

/-- Fuelled digit accumulator behind `str(n)` for naturals; the fuel is
always at least the number of digits, so it never runs out. -/
def natDigitsGo : Nat → Nat → List Char → List Char
  | 0, _, acc => acc
  | fuel + 1, n, acc =>
    if n < 10 then pyDigitChar n :: acc
    else natDigitsGo fuel (n / 10) (pyDigitChar (n % 10) :: acc)

/-- Python `str(n)` for a natural number. -/
def natStr (n : Nat) : Str := natDigitsGo (n + 1) n []

/-- Python `str(i)` for an integer. -/
def intStr (i : Int) : Str :=
  if i < 0 then '-' :: natStr ((-i).toNat) else natStr i.toNat

/-- Python `str(f)` for a float (modelled as a rational): renders the
integer part plus `.0` for whole values and a fraction otherwise.  The
exact shortest-repr formatting of CPython is not reproduced; no claim
depends on the rendering of non-integral floats. -/
def floatStr (q : ℚ) : Str :=
  if q.den = 1 then intStr q.num ++ chars (".0")
  else intStr q.num ++ '/' :: natStr q.den

/-- Python `str(v)`.  Mappings never reach `str()` in the script's
renderers (replacement values are scalars or strings), so their repr is
abbreviated. -/
def pyStr : Val → Str
  | .vnone => chars ("None")
  | .vbool true => chars ("True")
  | .vbool false => chars ("False")
  | .vint n => intStr n
  | .vfloat q => floatStr q
  | .vstr s => s
  | .vdict _ => chars ("\x7b...\x7d")

/-- The fatal conditions of the script: a bare coercion failure
(`TypeError`/`ValueError` from `float()`/`int()`, carrying no config
path), a mapping subscript on a missing key (`KeyError`, collapsed with
the `TypeError` of subscripting a non-mapping), the `SystemExit` of
`_as_float`/`_as_int` whose message names the offending path, and the
`SystemExit` of `validate_rules` whose message names the offending
values. -/
inductive PyErr where
  | typeError : PyErr
  | keyError : PyErr
  | configError : Str → PyErr
  | validationError : Str → PyErr

/-- Python `float(v)` as a partial function: numbers and booleans
coerce, `None` and mappings raise.  Numeric strings (which would
coerce in Python) are outside the model: the YAML deserializer hands
numeric scalars over as ints/floats already. -/
def pyFloat : Val → Option ℚ
  | .vint n => some (n : ℚ)
  | .vfloat q => some q
  | .vbool b => some (if b then 1 else 0)
  | _ => Option.none

/-- Python `int(v)` as a partial function (floats truncate toward
zero); same modelling note as `pyFloat` for strings. -/
def pyInt : Val → Option Int
  | .vint n => some n
  | .vfloat q => some (if q < 0 then -(Int.floor (-q)) else Int.floor q)
  | .vbool b => some (if b then 1 else 0)
  | _ => Option.none

/-- The script's `_as_float`: coerce or exit with a message naming the
offending path. -/
def as_float (v : Val) (path : Str) : Except PyErr ℚ :=
  match pyFloat v with
  | some q => Except.ok q
  | Option.none =>
    Except.error (PyErr.configError
      (chars ("Invalid numeric value at ") ++ path ++ chars (": ") ++ pyStr v))

/-- The script's `_as_int`: coerce or exit with a message naming the
offending path. -/
def as_int (v : Val) (path : Str) : Except PyErr Int :=
  match pyInt v with
  | some n => Except.ok n
  | Option.none =>
    Except.error (PyErr.configError
      (chars ("Invalid integer value at ") ++ path ++ chars (": ") ++ pyStr v))

/-- The script's `_mk_min_count`: the COMPLETE schema expresses rules
as strictly-greater-than a value; the legacy schema expects the
inclusive `min_count`, i.e. value + 1. -/
def mk_min_count (v : Val) (path : Str) : Except PyErr Int :=
  (as_int v path).map (fun n => n + 1)

/-- Bare `int(v)` as used inside the renderers (raises a path-less
`TypeError`/`ValueError` on failure). -/
def intCoerce (v : Val) : Except PyErr Int :=
  match pyInt v with
  | some n => Except.ok n
  | Option.none => Except.error PyErr.typeError

/-- Python `v[k]` subscripting on a mapping. -/
def pyIndex (v : Val) (k : Str) : Except PyErr Val :=
  match v with
  | .vdict es =>
    match lookupKey es k with
    | some x => Except.ok x
    | Option.none => Except.error PyErr.keyError
  | _ => Except.error PyErr.keyError

/-- Fuelled scanner behind `str.replace`: left-to-right, non-overlapping
replacement of every occurrence of `pat`.  The fuel is always at least
the length of the subject, so it never runs out (`pat = []` never occurs
in the script and is a no-op here). -/
def replaceAllGo (pat repl : Str) : Nat → Str → Str
  | _, [] => []
  | 0, s => s
  | fuel + 1, c :: rest =>
    match pat.isPrefixOf (c :: rest) && !pat.isEmpty with
    | true => repl ++ replaceAllGo pat repl fuel ((c :: rest).drop pat.length)
    | false => c :: replaceAllGo pat repl fuel rest

/-- Python `s.replace(pat, repl)` for a non-empty `pat`. -/
def replaceAll (pat repl s : Str) : Str := replaceAllGo pat repl s.length s

/-- Whether `pat` occurs as a contiguous run inside `s`. -/
def containsSeq (pat : Str) : Str → Bool
  | [] => pat.isEmpty
  | c :: rest => pat.isPrefixOf (c :: rest) || containsSeq pat rest

/-- The replacement mapping of `_render_dimension_block`, in the
source's insertion order; the two threshold entries are read by plain
subscripting and can raise, as can `dim_cfg["variable"]` and
`dim_cfg["error_variable"]`. -/
def dimensionReplacements (dim_cfg thresholds : Val) : Except PyErr (List (Str × Val)) := do
  let exc ← pyIndex (← pyIndex thresholds (chars ("excellent"))) (chars ("percentage"))
  let acceptable_min ← pyIndex (← pyIndex thresholds (chars ("acceptable"))) (chars ("min_percentage"))
  let var ← pyIndex dim_cfg (chars ("variable"))
  let error_var ← pyIndex dim_cfg (chars ("error_variable"))
  pure [
    (chars ("@@DIMENSION_NAME@@"), vgetDef dim_cfg (chars ("label_en")) (Val.vstr [])),
    (chars ("@@LABEL_IT@@"), vgetDef dim_cfg (chars ("label_it")) (Val.vstr [])),
    (chars ("@@LABEL_EN@@"), vgetDef dim_cfg (chars ("label_en")) (Val.vstr [])),
    (chars ("@@DESCRIPTION_IT@@"), vgetDef dim_cfg (chars ("description_it")) (Val.vstr [])),
    (chars ("@@ERROR_LABEL_IT@@"), vgetDef dim_cfg (chars ("error_label_it")) (Val.vstr (chars ("ERRORI")))),
    (chars ("@@VAR@@"), var),
    (chars ("@@ERROR_VAR@@"), error_var),
    (chars ("@@THRESH_EXCELLENT@@"), Val.vstr (pyStr exc)),
    (chars ("@@THRESH_ACCEPTABLE@@"), Val.vstr (pyStr acceptable_min))]

/-- The script's `_render_dimension_block`: substitute every
replacement pair into the template, sequentially in insertion order,
stringifying each value. -/
def render_dimension_block (template : Str) (dim_cfg thresholds : Val) : Except PyErr Str := do
  let reps ← dimensionReplacements dim_cfg thresholds
  pure (reps.foldl (fun out tv => replaceAll tv.1 (pyStr tv.2) out) template)

/-- The replacement mapping of `_render_error_card`, in the source's
insertion order.  `cfg` is the module-global configuration binding the
source reads for the four severity labels (passed explicitly here); the
three comparison constants are `min_count - 1`, reconstructing the
strict-greater-than values of the consuming template. -/
def errorCardReplacements (cfg card_cfg thresholds : Val) : Except PyErr (List (Str × Val)) := do
  let critical_cmp := (← intCoerce (← pyIndex (← pyIndex thresholds (chars ("critical"))) (chars ("min_count")))) - 1
  let high_cmp := (← intCoerce (← pyIndex (← pyIndex thresholds (chars ("high"))) (chars ("min_count")))) - 1
  let medium_cmp := (← intCoerce (← pyIndex (← pyIndex thresholds (chars ("medium"))) (chars ("min_count")))) - 1
  let labels ← pyIndex (← pyIndex cfg (chars ("error_distribution"))) (chars ("thresholds"))
  let var ← pyIndex card_cfg (chars ("variable"))
  pure [
    (chars ("@@DIMENSION_NAME@@"), vgetDef card_cfg (chars ("label")) (Val.vstr [])),
    (chars ("@@DIMENSION_LABEL@@"), vgetDef card_cfg (chars ("label")) (Val.vstr [])),
    (chars ("@@SUBTITLE_FALLBACK_IT@@"), vgetDef card_cfg (chars ("subtitle_fallback_it")) (Val.vstr [])),
    (chars ("@@ERROR_VAR@@"), var),
    (chars ("@@THRESH_CRITICAL@@"), Val.vstr (intStr critical_cmp)),
    (chars ("@@THRESH_HIGH@@"), Val.vstr (intStr high_cmp)),
    (chars ("@@THRESH_MEDIUM@@"), Val.vstr (intStr medium_cmp)),
    (chars ("@@LABEL_CRITICAL_IT@@"), Val.vstr (pyStr (vgetDef (pyOr (vget labels (chars ("critical"))) emptyDict) (chars ("label_it")) (Val.vstr (chars ("Situazione critica!")))))),
    (chars ("@@LABEL_HIGH_IT@@"), Val.vstr (pyStr (vgetDef (pyOr (vget labels (chars ("high"))) emptyDict) (chars ("label_it")) (Val.vstr (chars ("Richiede attenzione")))))),
    (chars ("@@LABEL_MEDIUM_IT@@"), Val.vstr (pyStr (vgetDef (pyOr (vget labels (chars ("medium"))) emptyDict) (chars ("label_it")) (Val.vstr (chars ("Errori moderati")))))),
    (chars ("@@LABEL_LOW_IT@@"), Val.vstr (pyStr (vgetDef (pyOr (vget labels (chars ("low"))) emptyDict) (chars ("label_it")) (Val.vstr (chars ("Errori minimi"))))))]

/-- The script's `_render_error_card`. -/
def render_error_card (cfg : Val) (template : Str) (card_cfg thresholds : Val) : Except PyErr Str := do
  let reps ← errorCardReplacements cfg card_cfg thresholds
  pure (reps.foldl (fun out tv => replaceAll tv.1 (pyStr tv.2) out) template)

/-- The token vocabulary of the dimension-block template, in
substitution order. -/
def dimensionTokens : List Str :=
  [chars ("@@DIMENSION_NAME@@"), chars ("@@LABEL_IT@@"), chars ("@@LABEL_EN@@"),
   chars ("@@DESCRIPTION_IT@@"), chars ("@@ERROR_LABEL_IT@@"), chars ("@@VAR@@"),
   chars ("@@ERROR_VAR@@"), chars ("@@THRESH_EXCELLENT@@"), chars ("@@THRESH_ACCEPTABLE@@")]

/-- The token vocabulary of the error-card template, in substitution
order. -/
def errorCardTokens : List Str :=
  [chars ("@@DIMENSION_NAME@@"), chars ("@@DIMENSION_LABEL@@"), chars ("@@SUBTITLE_FALLBACK_IT@@"),
   chars ("@@ERROR_VAR@@"), chars ("@@THRESH_CRITICAL@@"), chars ("@@THRESH_HIGH@@"),
   chars ("@@THRESH_MEDIUM@@"), chars ("@@LABEL_CRITICAL_IT@@"), chars ("@@LABEL_HIGH_IT@@"),
   chars ("@@LABEL_MEDIUM_IT@@"), chars ("@@LABEL_LOW_IT@@")]

/-- Python `sep.join(pieces)`. -/
def pyJoin (sep : Str) : List Str → Str
  | [] => []
  | [x] => x
  | x :: y :: rest => x ++ sep ++ pyJoin sep (y :: rest)

/-- The section assembly of `generate_snippets`: join the rendered
pieces with a blank line, strip, and append one newline. -/
def assembleSection (pieces : List Str) : Str :=
  pyStrip (pyJoin (chars ("\n\n")) pieces) ++ chars ("\n")

/-- The built-in `dimension_score_html` template of `DEFAULT_TEMPLATES`. -/
def defaultDimensionScoreHtml : Str := chars ("<!-- @@DIMENSION_NAME@@ -->
<div>
    <div class=\"flex justify-between items-center mb-2\">
        <div>
            <h4 class=\"text-lg font-bold text-gray-900\">@@LABEL_IT@@ (@@LABEL_EN@@)</h4>
            <p class=\"text-sm text-gray-600\">@@DESCRIPTION_IT@@</p>
        </div>
        <div class=\"text-right\">
            <span class=\"text-3xl font-bold\"
                  th:classappend=\"$\x7b@@VAR@@ != null && @@VAR@@ >= @@THRESH_EXCELLENT@@ ? \x27text-green-600\x27 :
                                  @@VAR@@ != null && @@VAR@@ >= @@THRESH_ACCEPTABLE@@ ? \x27text-amber-600\x27 :
                                  \x27text-red-600\x27\x7d\"
                  th:text=\"$\x7b#numbers.formatDecimal((@@VAR@@ != null ? @@VAR@@ : 0), 1, 1)\x7d + \x27%\x27\"><span>0.0%</span></span>
            <p class=\"text-xs font-semibold\"
               th:classappend=\"$\x7b@@VAR@@ != null && @@VAR@@ >= @@THRESH_EXCELLENT@@ ? \x27text-green-600\x27 :
                               @@VAR@@ != null && @@VAR@@ >= @@THRESH_ACCEPTABLE@@ ? \x27text-amber-600\x27 :
                               \x27text-red-600\x27\x7d\"><span th:text=\"$\x7b@@ERROR_VAR@@\x7d\">0</span> @@ERROR_LABEL_IT@@</p>
        </div>
    </div>
    <div class=\"w-full bg-gray-200 rounded-full h-4\">
        <div class=\"h-4 rounded-full\"
             th:style=\"$\x7b\x27width: \x27 + (@@VAR@@ != null ? @@VAR@@ : 0) + \x27%\x27\x7d\"
             th:classappend=\"$\x7b@@VAR@@ != null && @@VAR@@ >= @@THRESH_EXCELLENT@@ ? \x27bg-green-600\x27 :
                             @@VAR@@ != null && @@VAR@@ >= @@THRESH_ACCEPTABLE@@ ? \x27bg-amber-500\x27 :
                             \x27bg-red-600\x27\x7d\"></div>
    </div>
</div>
")

/-- The built-in `error_distribution_card_html` template of `DEFAULT_TEMPLATES`. -/
def defaultErrorCardHtml : Str := chars ("<!-- @@DIMENSION_NAME@@ Error Card -->
<div class=\"rounded-lg p-6 border-2\"
   th:with=\"severity=$\x7b@@ERROR_VAR@@ > @@THRESH_CRITICAL@@ ? \x27critical\x27 : @@ERROR_VAR@@ > @@THRESH_HIGH@@ ? \x27high\x27 : @@ERROR_VAR@@ > @@THRESH_MEDIUM@@ ? \x27medium\x27 : \x27low\x27\x7d\"
   th:classappend=\"$\x7bseverity == \x27critical\x27 ? \x27bg-red-50 border-red-200\x27 :
           severity == \x27high\x27 ? \x27bg-orange-50 border-orange-200\x27 :
           severity == \x27medium\x27 ? \x27bg-yellow-50 border-yellow-200\x27 :
           \x27bg-green-50 border-green-200\x27\x7d\">
  <div class=\"flex justify-between items-start mb-4\">
    <div>
      <p class=\"text-sm font-semibold\"
         th:classappend=\"$\x7bseverity == \x27critical\x27 ? \x27text-red-800\x27 :
                 severity == \x27high\x27 ? \x27text-orange-800\x27 :
                 severity == \x27medium\x27 ? \x27text-yellow-800\x27 :
                 \x27text-green-800\x27\x7d\">@@DIMENSION_LABEL@@</p>
      <p class=\"text-xs mt-1\"
         th:classappend=\"$\x7bseverity == \x27critical\x27 ? \x27text-red-600\x27 :
                 severity == \x27high\x27 ? \x27text-orange-600\x27 :
                 severity == \x27medium\x27 ? \x27text-yellow-600\x27 :
                 \x27text-green-600\x27\x7d\"
         th:text=\"$\x7bseverity == \x27critical\x27 ? \x27@@LABEL_CRITICAL_IT@@\x27 :
             severity == \x27high\x27 ? \x27@@LABEL_HIGH_IT@@\x27 :
             severity == \x27medium\x27 ? \x27@@LABEL_MEDIUM_IT@@\x27 :
             \x27@@LABEL_LOW_IT@@\x27\x7d\">@@SUBTITLE_FALLBACK_IT@@</p>
    </div>
    <span class=\"text-3xl font-bold\"
        th:classappend=\"$\x7bseverity == \x27critical\x27 ? \x27text-red-600\x27 :
                severity == \x27high\x27 ? \x27text-orange-600\x27 :
                severity == \x27medium\x27 ? \x27text-yellow-600\x27 :
                \x27text-green-600\x27\x7d\"
        th:text=\"$\x7b@@ERROR_VAR@@\x7d\">0</span>
  </div>
  <div class=\"w-full rounded-full h-3\"
     th:classappend=\"$\x7bseverity == \x27critical\x27 ? \x27bg-red-200\x27 :
             severity == \x27high\x27 ? \x27bg-orange-200\x27 :
             severity == \x27medium\x27 ? \x27bg-yellow-200\x27 :
             \x27bg-green-200\x27\x7d\">
    <div class=\"h-3 rounded-full\"
       th:classappend=\"$\x7bseverity == \x27critical\x27 ? \x27bg-red-600\x27 :
               severity == \x27high\x27 ? \x27bg-orange-600\x27 :
               severity == \x27medium\x27 ? \x27bg-yellow-600\x27 :
               \x27bg-green-600\x27\x7d\"
       th:style=\"$\x7b\x27width: \x27 + (maxCnt > 0 ? ((@@ERROR_VAR@@ * 100.0) / maxCnt) : 0) + \x27%\x27\x7d\" style=\"width: 100%\"></div>
  </div>
    <p class=\"text-xs mt-2\"
     th:classappend=\"$\x7bseverity == \x27critical\x27 ? \x27text-red-700\x27 :
             severity == \x27high\x27 ? \x27text-orange-700\x27 :
             severity == \x27medium\x27 ? \x27text-yellow-700\x27 :
             \x27text-green-700\x27\x7d\"><span th:text=\"$\x7bqualityResults.totalErrors > 0 ? #numbers.formatDecimal((@@ERROR_VAR@@ * 100.0) / qualityResults.totalErrors, 1, 1) : \x270.0\x27\x7d\">62.5</span>% degli errori totali</p>
    </div>
")

/-- The `DEFAULT_TEMPLATES` mapping, in insertion order. -/
def default_templates : List (Str × Val) :=
  [(chars ("dimension_score_html"), Val.vstr defaultDimensionScoreHtml),
   (chars ("error_distribution_card_html"), Val.vstr defaultErrorCardHtml)]

/-- The schema tag produced by `_normalize_config`. -/
inductive Tag where
  | complete : Tag
  | legacy : Tag
deriving DecidableEq

/-- Python `k in v` for a possible mapping (the script only reaches it
behind an `isinstance(v, dict)` short-circuit). -/
def vContainsKey (v : Val) (k : Str) : Bool :=
  match v with
  | .vdict es => containsKeyB es k
  | _ => false

/-- The script's `_is_complete_schema`: a raw mapping is tagged
complete iff `global`, `dimension_scores` and `error_distribution` are
mappings and `dimension_scores` has a key `enabled`. -/
def is_complete_schema (raw : List (Str × Val)) : Bool :=
  isDict ((lookupKey raw (chars ("global"))).getD Val.vnone) &&
  isDict ((lookupKey raw (chars ("dimension_scores"))).getD Val.vnone) &&
  isDict ((lookupKey raw (chars ("error_distribution"))).getD Val.vnone) &&
  vContainsKey ((lookupKey raw (chars ("dimension_scores"))).getD Val.vnone) (chars ("enabled"))

/-- The per-dimension loop of `_normalize_complete`: non-mapping
entries are skipped; `variable` and `error_variable` are resolved from
ordered candidate lists with `""` as last resort; `label_it` is
cleaned; `error_label_it` is fixed to `ERRORI`. -/
def dimensionsOut (dims : List (Str × Val)) : List (Str × Val) :=
  dims.filterMap (fun kv =>
    match kv.2 with
    | Val.vdict dd =>
      let d := Val.vdict dd
      some (kv.1, Val.vdict [
        (chars ("variable"), pyOr (pyOr (pyOr (vget d (chars ("variable_score"))) (vget d (chars ("variable")))) (vget d (chars ("id")))) (Val.vstr [])),
        (chars ("error_variable"), pyOr (pyOr (vget d (chars ("variable_error"))) (vget d (chars ("error_variable")))) (Val.vstr [])),
        (chars ("label_it"), Val.vstr (clean_label_it (vget d (chars ("label_it"))))),
        (chars ("label_en"), pyOr (vget d (chars ("label_en"))) (Val.vstr [])),
        (chars ("description_it"), pyOr (vget d (chars ("description_it"))) (Val.vstr [])),
        (chars ("error_label_it"), Val.vstr (chars ("ERRORI")))])
    | _ => Option.none)

/-- The three fixed error-card dimensions of `_normalize_complete`, in
emission order: key, label, subtitle fallback. -/
def orderedCards : List (Str × Str × Str) :=
  [(chars ("completeness"), chars ("COMPLETENESS"), chars ("Dimensione più problematica")),
   (chars ("accuracy"), chars ("ACCURACY"), chars ("Seconda dimensione critica")),
   (chars ("consistency"), chars ("CONSISTENCY"), chars ("Terza dimensione critica"))]

/-- The error-card loop of `_normalize_complete`: a card is emitted for
each of the three fixed keys whose entry is a mapping with a truthy
`variable_count`, in the fixed order. -/
def errorCardsOut (dim_defs : Val) : List (Str × Val) :=
  orderedCards.filterMap (fun e =>
    let d := pyOr (vget dim_defs e.1) emptyDict
    if isDict d = false then Option.none
    else
      let var_cnt := vget d (chars ("variable_count"))
      if truthy var_cnt = false then Option.none
      else some (e.1, Val.vdict [
        (chars ("variable"), var_cnt),
        (chars ("label"), Val.vstr e.2.1),
        (chars ("subtitle_fallback_it"), Val.vstr e.2.2)]))

/-- The script's `_normalize_complete`: coerce the two percentage
thresholds, clean and restructure the dimensions, translate the
strict-greater-than error thresholds to inclusive `min_count`s
(`low` keeps an unadjusted `max_count`, default 10), emit the fixed
error cards, and attach the default templates. -/
def normalize_complete (raw : List (Str × Val)) : Except PyErr (List (Str × Val)) := do
  let dim_raw := pyOr ((lookupKey raw (chars ("dimension_scores"))).getD Val.vnone) emptyDict
  let dim_thresholds_raw := pyOr (vget dim_raw (chars ("thresholds"))) emptyDict
  let excellent_value ← as_float (vget (pyOr (vget dim_thresholds_raw (chars ("excellent"))) emptyDict) (chars ("value"))) (chars ("dimension_scores.thresholds.excellent.value"))
  let acceptable_value ← as_float (vget (pyOr (vget dim_thresholds_raw (chars ("acceptable"))) emptyDict) (chars ("value"))) (chars ("dimension_scores.thresholds.acceptable.value"))
  let dims := dimensionsOut (asEntries (pyOr (vget dim_raw (chars ("dimensions"))) emptyDict))
  let err_raw := pyOr ((lookupKey raw (chars ("error_distribution"))).getD Val.vnone) emptyDict
  let err_thresholds_raw := pyOr (vget err_raw (chars ("thresholds"))) emptyDict
  let critical_min ← mk_min_count (vget (pyOr (vget err_thresholds_raw (chars ("critical"))) emptyDict) (chars ("value"))) (chars ("error_distribution.thresholds.critical.value"))
  let high_min ← mk_min_count (vget (pyOr (vget err_thresholds_raw (chars ("high"))) emptyDict) (chars ("value"))) (chars ("error_distribution.thresholds.high.value"))
  let medium_min ← mk_min_count (vget (pyOr (vget err_thresholds_raw (chars ("medium"))) emptyDict) (chars ("value"))) (chars ("error_distribution.thresholds.medium.value"))
  let low_max ← as_int (vgetDef (pyOr (vget err_thresholds_raw (chars ("low"))) emptyDict) (chars ("threshold_value")) (Val.vint 10)) (chars ("error_distribution.thresholds.low.threshold_value"))
  pure [
    (chars ("dimension_scores"), Val.vdict [
      (chars ("thresholds"), Val.vdict [
        (chars ("excellent"), Val.vdict [(chars ("percentage"), Val.vfloat excellent_value)]),
        (chars ("acceptable"), Val.vdict [(chars ("min_percentage"), Val.vfloat acceptable_value)])]),
      (chars ("dimensions"), Val.vdict dims)]),
    (chars ("error_distribution"), Val.vdict [
      (chars ("thresholds"), Val.vdict [
        (chars ("critical"), Val.vdict [
          (chars ("min_count"), Val.vint critical_min),
          (chars ("label_it"), vgetDef (pyOr (vget err_thresholds_raw (chars ("critical"))) emptyDict) (chars ("label_it")) (Val.vstr (chars ("Situazione critica!"))))]),
        (chars ("high"), Val.vdict [
          (chars ("min_count"), Val.vint high_min),
          (chars ("label_it"), vgetDef (pyOr (vget err_thresholds_raw (chars ("high"))) emptyDict) (chars ("label_it")) (Val.vstr (chars ("Richiede attenzione"))))]),
        (chars ("medium"), Val.vdict [
          (chars ("min_count"), Val.vint medium_min),
          (chars ("label_it"), vgetDef (pyOr (vget err_thresholds_raw (chars ("medium"))) emptyDict) (chars ("label_it")) (Val.vstr (chars ("Errori moderati"))))]),
        (chars ("low"), Val.vdict [
          (chars ("max_count"), Val.vint low_max),
          (chars ("label_it"), vgetDef (pyOr (vget err_thresholds_raw (chars ("low"))) emptyDict) (chars ("label_it")) (Val.vstr (chars ("Errori minimi"))))])]),
      (chars ("dimensions"), Val.vdict (errorCardsOut (pyOr (vget dim_raw (chars ("dimensions"))) emptyDict)))]),
    (chars ("templates"), Val.vdict default_templates)]

/-- The supplied `templates` mapping of a legacy config: `.get` with
`or {}`, then reset to `{}` if not a mapping. -/
def suppliedTemplates (raw : List (Str × Val)) : List (Str × Val) :=
  match pyOr ((lookupKey raw (chars ("templates"))).getD Val.vnone) emptyDict with
  | .vdict es => es
  | _ => []

/-- Python `dict.update`: existing keys are overwritten in place, new
keys are appended in the update's order. -/
def dictUpdate (base upd : List (Str × Val)) : List (Str × Val) :=
  (base.map (fun kv =>
    match lookupKey upd kv.1 with
    | some v => (kv.1, v)
    | Option.none => kv)) ++ upd.filter (fun kv => !containsKeyB base kv.1)

/-- Python dict assignment `d[k] = v`: overwrite in place or append. -/
def dictSet (es : List (Str × Val)) (k : Str) (v : Val) : List (Str × Val) :=
  if containsKeyB es k then es.map (fun kv => if kv.1 = k then (k, v) else kv)
  else es ++ [(k, v)]

/-- The string-valued entries of a mapping (the source's
`{k: v for k, v in templates.items() if isinstance(v, str)}`). -/
def stringValued (es : List (Str × Val)) : List (Str × Val) :=
  es.filter (fun kv =>
    match kv.2 with
    | .vstr _ => true
    | _ => false)

/-- The legacy branch of `_normalize_config`: keep the raw mapping
as-is, but when one of the two required template keys is missing,
replace `templates` by the defaults updated with the string-valued
supplied entries. -/
def normalize_legacy (raw : List (Str × Val)) : List (Str × Val) :=
  let templates := suppliedTemplates raw
  if !containsKeyB templates (chars ("dimension_score_html")) ||
     !containsKeyB templates (chars ("error_distribution_card_html")) then
    dictSet raw (chars ("templates")) (Val.vdict (dictUpdate default_templates (stringValued templates)))
  else raw

/-- The script's `_normalize_config`: dispatch on the detected schema
dialect. -/
def normalize_config (raw : List (Str × Val)) : Except PyErr (List (Str × Val) × Tag) :=
  if is_complete_schema raw then
    (normalize_complete raw).map (fun c => (c, Tag.complete))
  else
    Except.ok (normalize_legacy raw, Tag.legacy)

/-- The `dim` binding of `validate_rules`. -/
def vrDim (cfg : Val) : Val := pyOr (vget cfg (chars ("dimension_scores"))) emptyDict

/-- The `thresholds` binding of `validate_rules`. -/
def vrThresholds (cfg : Val) : Val := pyOr (vget (vrDim cfg) (chars ("thresholds"))) emptyDict

/-- The value passed to `float()` for `excellent.percentage`. -/
def vrExcellentPct (cfg : Val) : Val :=
  vget (pyOr (vget (vrThresholds cfg) (chars ("excellent"))) emptyDict) (chars ("percentage"))

/-- The value passed to `float()` for `acceptable.min_percentage`. -/
def vrAcceptableMin (cfg : Val) : Val :=
  vget (pyOr (vget (vrThresholds cfg) (chars ("acceptable"))) emptyDict) (chars ("min_percentage"))

/-- The `t` binding of `validate_rules` (error-distribution
thresholds). -/
def vrErrThresholds (cfg : Val) : Val :=
  pyOr (vget (pyOr (vget cfg (chars ("error_distribution"))) emptyDict) (chars ("thresholds"))) emptyDict

/-- The value passed to `int()` for `critical.min_count`. -/
def vrCriticalMin (cfg : Val) : Val :=
  vget (pyOr (vget (vrErrThresholds cfg) (chars ("critical"))) emptyDict) (chars ("min_count"))

/-- The value passed to `int()` for `high.min_count`. -/
def vrHighMin (cfg : Val) : Val :=
  vget (pyOr (vget (vrErrThresholds cfg) (chars ("high"))) emptyDict) (chars ("min_count"))

/-- The value passed to `int()` for `medium.min_count`. -/
def vrMediumMin (cfg : Val) : Val :=
  vget (pyOr (vget (vrErrThresholds cfg) (chars ("medium"))) emptyDict) (chars ("min_count"))

/-- The first invariant's failure message, naming both offending
values. -/
def msgDimensionThresholds (e a : ℚ) : Str :=
  chars ("Invalid dimension score thresholds: excellent (") ++ floatStr e ++
  chars (") must be > acceptable.min (") ++ floatStr a ++ chars (").")

/-- The second invariant's failure message, naming the three offending
values. -/
def msgErrorOrdering (c h m : Int) : Str :=
  chars ("Invalid error count ordering: critical.min (") ++ intStr c ++
  chars (") > high.min (") ++ intStr h ++ chars (") > medium.min (") ++ intStr m ++
  chars (") expected.")

/-- The script's `validate_rules`, in source evaluation order: coerce
the two percentages (bare `float()`), check invariant 1, coerce the
three `min_count`s (bare `int()`), check invariant 2. -/
def validate_rules (cfg : Val) : Except PyErr Unit :=
  match pyFloat (vrExcellentPct cfg) with
  | Option.none => Except.error PyErr.typeError
  | some excellent_pct =>
    match pyFloat (vrAcceptableMin cfg) with
    | Option.none => Except.error PyErr.typeError
    | some acceptable_min =>
      if excellent_pct ≤ acceptable_min then
        Except.error (PyErr.validationError (msgDimensionThresholds excellent_pct acceptable_min))
      else
        match pyInt (vrCriticalMin cfg) with
        | Option.none => Except.error PyErr.typeError
        | some critical_min =>
          match pyInt (vrHighMin cfg) with
          | Option.none => Except.error PyErr.typeError
          | some high_min =>
            match pyInt (vrMediumMin cfg) with
            | Option.none => Except.error PyErr.typeError
            | some medium_min =>
              if critical_min > high_min ∧ high_min > medium_min ∧ medium_min > 0 then
                Except.ok ()
              else
                Except.error (PyErr.validationError (msgErrorOrdering critical_min high_min medium_min))

/-- The output-producing core of `generate_snippets`: check the two
required templates are present and truthy, render one block per
dimension and one card per error-card entry (in insertion order), and
assemble the two snippet file contents. -/
def generate_snippets (cfg : Val) : Except PyErr (Str × Str) := do
  let templates := pyOr (vget cfg (chars ("templates"))) emptyDict
  let dim_tpl := vget templates (chars ("dimension_score_html"))
  let err_tpl := vget templates (chars ("error_distribution_card_html"))
  if !truthy dim_tpl || !truthy err_tpl then
    Except.error (PyErr.configError (chars ("Missing templates.dimension_score_html or templates.error_distribution_card_html")))
  else do
    let dim ← pyIndex cfg (chars ("dimension_scores"))
    let thresholds ← pyIndex dim (chars ("thresholds"))
    let blocks ← (asEntries (pyOr (vget dim (chars ("dimensions"))) emptyDict)).mapM
      (fun kv => render_dimension_block (asStr dim_tpl) kv.2 thresholds)
    let err ← pyIndex cfg (chars ("error_distribution"))
    let err_thresholds ← pyIndex err (chars ("thresholds"))
    let cards ← (asEntries (pyOr (vget err (chars ("dimensions"))) emptyDict)).mapM
      (fun kv => render_error_card cfg (asStr err_tpl) kv.2 err_thresholds)
    pure (assembleSection blocks, assembleSection cards)

/-- C4 (corrected), spec side: the detector requires `global`,
`dimension_scores` and `error_distribution` to be mappings and
`enabled` to be a key of the `dimension_scores` mapping itself — a
direct key, not one nested under a per-dimension or threshold block. -/
def completeSchemaSpec (raw : List (Str × Val)) : Prop :=
  (∃ g, lookupKey raw (chars ("global")) = some (Val.vdict g)) ∧
  (∃ d, lookupKey raw (chars ("dimension_scores")) = some (Val.vdict d) ∧
        ∃ v, lookupKey d (chars ("enabled")) = some v) ∧
  (∃ e, lookupKey raw (chars ("error_distribution")) = some (Val.vdict e))

/-- C5 spec side: per the spec's words, a card is emitted for each of
the three fixed keys, in order, exactly when the source per-dimension
entry is a mapping carrying a truthy `variable_count`, which becomes
the card's `variable`; the card's label and subtitle are the fixed
ones. -/
def specErrorCards (dim_defs : Val) : List (Str × Val) :=
  orderedCards.filterMap (fun e =>
    match dim_defs with
    | Val.vdict ds =>
      match lookupKey ds e.1 with
      | some (Val.vdict dd) =>
        match lookupKey dd (chars ("variable_count")) with
        | some vc =>
          if truthy vc then
            some (e.1, Val.vdict [
              (chars ("variable"), vc),
              (chars ("label"), Val.vstr e.2.1),
              (chars ("subtitle_fallback_it"), Val.vstr e.2.2)])
          else Option.none
        | Option.none => Option.none
      | _ => Option.none
    | _ => Option.none)

-- Basic membership lemmas about stripping.

theorem mem_stripL {c : Char} {s : Str} (h : c ∈ stripL s) : c ∈ s :=
  (List.dropWhile_sublist isPyWS).mem h

theorem mem_stripR {c : Char} {s : Str} (h : c ∈ stripR s) : c ∈ s := by
  unfold stripR at h
  rw [List.mem_reverse] at h
  exact List.mem_reverse.mp ((List.dropWhile_sublist isPyWS).mem h)

theorem mem_pyStrip {c : Char} {s : Str} (h : c ∈ pyStrip s) : c ∈ s :=
  mem_stripL (mem_stripR h)

-- Claim C3: label cleaning.

/-- C3 (corrected): label_it cleaning first trims; every trimmed value
containing no parenthesis passes through (the spec's example holds);
and a trimmed value that does not end in `)` passes through even when
it contains `(` — the from-first-parenthesis stripping only fires when
the trimmed value also ends with `)`. -/
theorem c3_label_cleaning :
    (∀ s : Str, '(' ∉ s → cleanLabelStr s = pyStrip s) ∧
    cleanLabelStr (chars ("Completezza (Completeness)")) = chars ("Completezza") ∧
    (∀ s : Str, '(' ∈ pyStrip s → (pyStrip s).getLast? ≠ some ')' →
      cleanLabelStr s = pyStrip s) := by
  refine ⟨?_, by decide, ?_⟩
  · intro s h
    simp only [cleanLabelStr]
    rw [if_neg]
    rintro ⟨h1, _⟩
    exact h (mem_pyStrip h1)
  · intro s h1 h2
    simp only [cleanLabelStr]
    rw [if_neg]
    rintro ⟨_, hlast⟩
    exact h2 hlast

/-- C3 witness: a parenthesis-free label passes through the cleaner. -/
theorem c3_label_cleaning_witness :
    cleanLabelStr (chars ("Completezza")) = pyStrip (chars ("Completezza")) :=
  c3_label_cleaning.1 (chars ("Completezza")) (by decide)

/-- C3 counterexample: on `"Foo (bar"` (contains `(`, does not end with
`)`) the script's cleaner returns the value unchanged, not the
claim's from-first-parenthesis stripping `"Foo"`. -/
theorem c3_label_cleaning_counterexample :
    clean_label_it (Val.vstr (chars ("Foo (bar"))) = chars ("Foo (bar") ∧
    chars ("Foo (bar") ≠ chars ("Foo") := by
  exact ⟨rfl, by decide⟩

-- Machinery for the token-substitution claims: the fuelled scanner is
-- fuel-irrelevant above the subject's length, giving clean unfolding
-- equations for `replaceAll`.

theorem replaceAllGo_fuel_eq (pat repl : Str) :
    ∀ (fuel : Nat) (s : Str), s.length ≤ fuel →
      replaceAllGo pat repl fuel s = replaceAllGo pat repl s.length s := by
  intro fuel
  induction fuel using Nat.strong_induction_on with
  | _ fuel ih =>
    intro s hs
    match s with
    | [] =>
      cases fuel <;> rfl
    | c :: rest =>
      obtain ⟨f, rfl⟩ : ∃ f, fuel = f + 1 := ⟨fuel - 1, by simp at hs; omega⟩
      show replaceAllGo pat repl (f + 1) (c :: rest)
          = replaceAllGo pat repl (rest.length + 1) (c :: rest)
      have hs' : rest.length ≤ f := by simp at hs; omega
      cases hb : pat.isPrefixOf (c :: rest) && !pat.isEmpty with
      | true =>
        have hplen : 1 ≤ pat.length := by
          cases pat with
          | nil => simp at hb
          | cons _ _ => simp
        have hdlen : ((c :: rest).drop pat.length).length = rest.length + 1 - pat.length := by
          simp
        simp only [replaceAllGo, hb]
        congr 1
        rw [ih f (by omega) _ (by omega), ih rest.length (by omega) _ (by omega)]
      | false =>
        simp only [replaceAllGo, hb]
        congr 1
        rw [ih f (by omega) rest hs', ih rest.length (by omega) rest (le_refl _)]

theorem replaceAll_cons_pos {pat : Str} (repl : Str) {c : Char} {rest : Str}
    (h1 : pat.isPrefixOf (c :: rest) = true) (h2 : pat ≠ []) :
    replaceAll pat repl (c :: rest)
      = repl ++ replaceAll pat repl ((c :: rest).drop pat.length) := by
  have hb : (pat.isPrefixOf (c :: rest) && !pat.isEmpty) = true := by
    simp [h1, h2]
  have hplen : 1 ≤ pat.length := by
    cases pat with
    | nil => exact absurd rfl h2
    | cons _ _ => simp
  show replaceAllGo pat repl (c :: rest).length (c :: rest) = _
  have hlen : (c :: rest).length = rest.length + 1 := rfl
  rw [hlen]
  simp only [replaceAllGo, hb]
  rw [replaceAllGo_fuel_eq pat repl rest.length _ (by simp; omega)]
  rfl

theorem replaceAll_cons_neg {pat : Str} (repl : Str) {c : Char} {rest : Str}
    (h : (pat.isPrefixOf (c :: rest) && !pat.isEmpty) = false) :
    replaceAll pat repl (c :: rest) = c :: replaceAll pat repl rest := by
  show replaceAllGo pat repl (c :: rest).length (c :: rest) = _
  have hlen : (c :: rest).length = rest.length + 1 := rfl
  rw [hlen]
  simp only [replaceAllGo, h]
  rfl

theorem replaceAll_of_containsSeq_false {pat : Str} (repl : Str) {s : Str}
    (h : containsSeq pat s = false) : replaceAll pat repl s = s := by
  induction s with
  | nil => rfl
  | cons c rest ih =>
    have h' : pat.isPrefixOf (c :: rest) = false ∧ containsSeq pat rest = false := by
      have := h
      simp only [containsSeq, Bool.or_eq_false_iff] at this
      exact this
    rw [replaceAll_cons_neg repl (by simp [h'.1]), ih h'.2]

theorem isPrefixOf_self (l : Str) : l.isPrefixOf l = true := by
  induction l with
  | nil => rfl
  | cons a as ih => simp [List.isPrefixOf, ih]

theorem replaceAll_self {pat : Str} (repl : Str) (h : pat ≠ []) :
    replaceAll pat repl pat = repl := by
  match pat, h with
  | c :: p', h =>
    rw [replaceAll_cons_pos repl (isPrefixOf_self _) h, List.drop_length]
    show repl ++ replaceAll (c :: p') repl [] = repl
    simp [replaceAll, replaceAllGo]

theorem mem_of_isPrefixOf {l₁ l₂ : Str} (h : l₁.isPrefixOf l₂ = true) :
    ∀ c ∈ l₁, c ∈ l₂ := by
  induction l₁ generalizing l₂ with
  | nil => intro c hc; cases hc
  | cons a as ih =>
    intro c hc
    cases l₂ with
    | nil => simp [List.isPrefixOf] at h
    | cons b bs =>
      simp only [List.isPrefixOf, Bool.and_eq_true, beq_iff_eq] at h
      rcases List.mem_cons.mp hc with hc | hc
      · subst hc
        exact h.1 ▸ List.mem_cons_self _ _
      · exact List.mem_cons_of_mem _ (ih h.2 c hc)

theorem containsSeq_false_of_missing {ch : Char} {pat s : Str}
    (hc : ch ∈ pat) (hs : ch ∉ s) : containsSeq pat s = false := by
  induction s with
  | nil =>
    cases pat with
    | nil => cases hc
    | cons _ _ => rfl
  | cons d rest ih =>
    show (pat.isPrefixOf (d :: rest) || containsSeq pat rest) = false
    have h1 : pat.isPrefixOf (d :: rest) = false := by
      cases hp : pat.isPrefixOf (d :: rest) with
      | false => rfl
      | true => exact absurd (mem_of_isPrefixOf hp ch hc) hs
    rw [h1, ih (fun hmem => hs (List.mem_cons_of_mem _ hmem))]
    rfl

theorem isPrefixOf_append_self (l post : Str) : l.isPrefixOf (l ++ post) = true := by
  induction l with
  | nil =>
    show List.isPrefixOf [] post = true
    cases post <;> rfl
  | cons a as ih => simp [List.isPrefixOf, ih]

theorem containsSeq_append_middle (pat pre post : Str) :
    containsSeq pat (pre ++ pat ++ post) = true := by
  induction pre with
  | nil =>
    simp only [List.nil_append]
    cases pat with
    | nil =>
      cases post <;> simp [containsSeq]
    | cons a as =>
      show ((a :: as).isPrefixOf ((a :: as) ++ post) || _) = true
      rw [isPrefixOf_append_self]
      rfl
  | cons c pre' ih =>
    show (pat.isPrefixOf _ || containsSeq pat (pre' ++ pat ++ post)) = true
    rw [ih, Bool.or_true]

theorem pyDigitChar_ne_at (m : Nat) : pyDigitChar m ≠ '@' := by
  unfold pyDigitChar
  repeat' split
  all_goals decide

theorem natDigitsGo_ne_at :
    ∀ (fuel n : Nat) (acc : List Char), (∀ c ∈ acc, c ≠ '@') →
      ∀ c ∈ natDigitsGo fuel n acc, c ≠ '@' := by
  intro fuel
  induction fuel with
  | zero => intro n acc hacc c hc; exact hacc c hc
  | succ f ih =>
    intro n acc hacc c hc
    unfold natDigitsGo at hc
    split at hc
    · rcases List.mem_cons.mp hc with h | h
      · exact h ▸ pyDigitChar_ne_at n
      · exact hacc c h
    · refine ih (n / 10) _ ?_ c hc
      intro x hx
      rcases List.mem_cons.mp hx with h | h
      · exact h ▸ pyDigitChar_ne_at _
      · exact hacc x h

theorem at_not_mem_natStr (n : Nat) : '@' ∉ natStr n := by
  intro h
  exact natDigitsGo_ne_at (n + 1) n [] (by intro c hc; cases hc) '@' h rfl

theorem at_not_mem_intStr (i : Int) : '@' ∉ intStr i := by
  unfold intStr
  split
  · intro h
    rcases List.mem_cons.mp h with h | h
    · exact absurd h (by decide)
    · exact at_not_mem_natStr _ h
  · exact at_not_mem_natStr _

theorem foldl_replace_noop (tpl : Str) :
    ∀ (reps : List (Str × Val)),
      (∀ p ∈ reps.map Prod.fst, containsSeq p tpl = false) →
      reps.foldl (fun out tv => replaceAll tv.1 (pyStr tv.2) out) tpl = tpl := by
  intro reps
  induction reps with
  | nil => intro _; rfl
  | cons kv rest ih =>
    intro h
    have h1 : containsSeq kv.1 tpl = false :=
      h kv.1 (List.mem_map_of_mem Prod.fst (List.mem_cons_self kv rest))
    show List.foldl _ (replaceAll kv.1 (pyStr kv.2) tpl) rest = tpl
    rw [replaceAll_of_containsSeq_false _ h1]
    exact ih (fun p hp => h p (List.mem_cons_of_mem _ hp))

-- Eliminating one monadic bind of the `Except` pipelines.

theorem exceptBind_ok {α β : Type} {x : Except PyErr α} {f : α → Except PyErr β} {b : β}
    (h : (x >>= f) = Except.ok b) : ∃ a, x = Except.ok a ∧ f a = Except.ok b := by
  cases x with
  | error e => simp [Bind.bind, Except.bind] at h
  | ok a => exact ⟨a, rfl, by simpa [Bind.bind, Except.bind] using h⟩

theorem dimensionReplacements_tokens {d t : Val} {reps : List (Str × Val)}
    (h : dimensionReplacements d t = Except.ok reps) :
    reps.map Prod.fst = dimensionTokens := by
  simp only [dimensionReplacements] at h
  obtain ⟨a1, h1, h⟩ := exceptBind_ok h
  obtain ⟨exc, h2, h⟩ := exceptBind_ok h
  obtain ⟨a2, h3, h⟩ := exceptBind_ok h
  obtain ⟨am, h4, h⟩ := exceptBind_ok h
  obtain ⟨var, h5, h⟩ := exceptBind_ok h
  obtain ⟨evar, h6, h⟩ := exceptBind_ok h
  simp only [pure, Except.pure, Except.ok.injEq] at h
  rw [← h]
  rfl

theorem errorCardReplacements_tokens {cfg card_cfg t : Val} {reps : List (Str × Val)}
    (h : errorCardReplacements cfg card_cfg t = Except.ok reps) :
    reps.map Prod.fst = errorCardTokens := by
  simp only [errorCardReplacements] at h
  obtain ⟨a1, h1, h⟩ := exceptBind_ok h
  obtain ⟨a2, h2, h⟩ := exceptBind_ok h
  obtain ⟨a3, h3, h⟩ := exceptBind_ok h
  obtain ⟨a4, h4, h⟩ := exceptBind_ok h
  obtain ⟨a5, h5, h⟩ := exceptBind_ok h
  obtain ⟨a6, h6, h⟩ := exceptBind_ok h
  obtain ⟨a7, h7, h⟩ := exceptBind_ok h
  obtain ⟨a8, h8, h⟩ := exceptBind_ok h
  obtain ⟨a9, h9, h⟩ := exceptBind_ok h
  obtain ⟨a10, h10, h⟩ := exceptBind_ok h
  obtain ⟨a11, h11, h⟩ := exceptBind_ok h
  obtain ⟨a12, h12, h⟩ := exceptBind_ok h
  simp only [pure, Except.pure, Except.ok.injEq] at h
  rw [← h]
  rfl

-- Claim C7: token substitution.

/-- C7 (corrected): both renderers substitute their replacement pairs
sequentially, one token at a time in a fixed order, so a value that
itself contains a later token is substituted again (the
simultaneous-substitution reading fails); what does hold is that a
template containing no occurrence of any recognized token — including
unrecognized `@@...@@` markers — is returned completely untouched, by
either renderer. -/
theorem c7_sequential_substitution :
    (∀ (tpl : Str) (dim_cfg thresholds : Val) (out : Str),
       (∀ p ∈ dimensionTokens, containsSeq p tpl = false) →
       render_dimension_block tpl dim_cfg thresholds = Except.ok out → out = tpl) ∧
    (∀ (cfg : Val) (tpl : Str) (card_cfg thresholds : Val) (out : Str),
       (∀ p ∈ errorCardTokens, containsSeq p tpl = false) →
       render_error_card cfg tpl card_cfg thresholds = Except.ok out → out = tpl) := by
  constructor
  · intro tpl d t out htok hr
    simp only [render_dimension_block] at hr
    obtain ⟨reps, hreps, hpure⟩ := exceptBind_ok hr
    have hmap : reps.map Prod.fst = dimensionTokens := dimensionReplacements_tokens hreps
    simp only [pure, Except.pure, Except.ok.injEq] at hpure
    rw [← hpure]
    exact foldl_replace_noop tpl reps (by rw [hmap]; exact htok)
  · intro cfg tpl c t out htok hr
    simp only [render_error_card] at hr
    obtain ⟨reps, hreps, hpure⟩ := exceptBind_ok hr
    have hmap : reps.map Prod.fst = errorCardTokens := errorCardReplacements_tokens hreps
    simp only [pure, Except.pure, Except.ok.injEq] at hpure
    rw [← hpure]
    exact foldl_replace_noop tpl reps (by rw [hmap]; exact htok)

/-- C7 witness: a template whose only marker is unrecognized passes
through the dimension renderer untouched. -/
theorem c7_sequential_substitution_witness :
    render_dimension_block (chars ("<p>@@UNKNOWN@@</p>"))
      (Val.vdict [(chars ("variable"), Val.vstr (chars ("v"))),
                  (chars ("error_variable"), Val.vstr (chars ("e")))])
      (Val.vdict [(chars ("excellent"), Val.vdict [(chars ("percentage"), Val.vint 90)]),
                  (chars ("acceptable"), Val.vdict [(chars ("min_percentage"), Val.vint 80)])])
      = Except.ok (chars ("<p>@@UNKNOWN@@</p>")) := by
  obtain ⟨out, hout⟩ :
      ∃ out, render_dimension_block (chars ("<p>@@UNKNOWN@@</p>"))
        (Val.vdict [(chars ("variable"), Val.vstr (chars ("v"))),
                    (chars ("error_variable"), Val.vstr (chars ("e")))])
        (Val.vdict [(chars ("excellent"), Val.vdict [(chars ("percentage"), Val.vint 90)]),
                    (chars ("acceptable"), Val.vdict [(chars ("min_percentage"), Val.vint 80)])])
        = Except.ok out := ⟨_, rfl⟩
  have heq := c7_sequential_substitution.1 _ _ _ out (by decide) hout
  rw [heq] at hout
  exact hout

/-- C7 counterexample: with `label_it` set to the literal text
`@@LABEL_EN@@`, rendering the template `@@LABEL_IT@@` produces `X`
(the value substituted into the inserted text by the later pass), not
the claim's simultaneous-substitution result `@@LABEL_EN@@`. -/
theorem c7_sequential_substitution_counterexample :
    render_dimension_block (chars ("@@LABEL_IT@@"))
      (Val.vdict [(chars ("label_it"), Val.vstr (chars ("@@LABEL_EN@@"))),
                  (chars ("label_en"), Val.vstr (chars ("X"))),
                  (chars ("variable"), Val.vstr (chars ("v"))),
                  (chars ("error_variable"), Val.vstr (chars ("e")))])
      (Val.vdict [(chars ("excellent"), Val.vdict [(chars ("percentage"), Val.vint 90)]),
                  (chars ("acceptable"), Val.vdict [(chars ("min_percentage"), Val.vint 80)])])
      = Except.ok (chars ("X")) ∧ chars ("X") ≠ chars ("@@LABEL_EN@@") := by
  exact ⟨rfl, by decide⟩

-- Machinery for C1: folding the replacement list over a template that
-- consists of exactly one token yields that token's stringified value,
-- provided the earlier tokens do not occur in the template and the
-- later tokens cannot occur in the value.

theorem replaceAll_noop_on_intStr {pat : Str} (v : Str) (h : '@' ∈ pat) (i : Int) :
    replaceAll pat v (intStr i) = intStr i :=
  replaceAll_of_containsSeq_false _ (containsSeq_false_of_missing h (at_not_mem_intStr i))

theorem fold_single_token {tok : Str} (htok : tok ≠ [])
    (pre post : List (Str × Val)) (v : Str)
    (hpre : ∀ p ∈ pre.map Prod.fst, containsSeq p tok = false)
    (hpost : ∀ p ∈ post.map Prod.fst, '@' ∈ p)
    (hv : '@' ∉ v) :
    (pre ++ (tok, Val.vstr v) :: post).foldl
      (fun out tv => replaceAll tv.1 (pyStr tv.2) out) tok = v := by
  rw [List.foldl_append]
  rw [foldl_replace_noop tok pre hpre]
  show List.foldl _ (replaceAll tok (pyStr (Val.vstr v)) tok) post = v
  have hself : replaceAll tok (pyStr (Val.vstr v)) tok = v := replaceAll_self _ htok
  rw [hself]
  exact foldl_replace_noop v post
    (fun p hp => containsSeq_false_of_missing (hpost p hp) hv)

theorem errorCardReplacements_of_int_thresholds
    {cfg card_cfg thresholds tc th tm ev labels vv : Val} {ci hi mi : Int}
    (hc1 : pyIndex thresholds (chars ("critical")) = Except.ok tc)
    (hc2 : pyIndex tc (chars ("min_count")) = Except.ok (Val.vint ci))
    (hh1 : pyIndex thresholds (chars ("high")) = Except.ok th)
    (hh2 : pyIndex th (chars ("min_count")) = Except.ok (Val.vint hi))
    (hm1 : pyIndex thresholds (chars ("medium")) = Except.ok tm)
    (hm2 : pyIndex tm (chars ("min_count")) = Except.ok (Val.vint mi))
    (he1 : pyIndex cfg (chars ("error_distribution")) = Except.ok ev)
    (he2 : pyIndex ev (chars ("thresholds")) = Except.ok labels)
    (hv : pyIndex card_cfg (chars ("variable")) = Except.ok vv) :
    errorCardReplacements cfg card_cfg thresholds = Except.ok [
      (chars ("@@DIMENSION_NAME@@"), vgetDef card_cfg (chars ("label")) (Val.vstr [])),
      (chars ("@@DIMENSION_LABEL@@"), vgetDef card_cfg (chars ("label")) (Val.vstr [])),
      (chars ("@@SUBTITLE_FALLBACK_IT@@"), vgetDef card_cfg (chars ("subtitle_fallback_it")) (Val.vstr [])),
      (chars ("@@ERROR_VAR@@"), vv),
      (chars ("@@THRESH_CRITICAL@@"), Val.vstr (intStr (ci - 1))),
      (chars ("@@THRESH_HIGH@@"), Val.vstr (intStr (hi - 1))),
      (chars ("@@THRESH_MEDIUM@@"), Val.vstr (intStr (mi - 1))),
      (chars ("@@LABEL_CRITICAL_IT@@"), Val.vstr (pyStr (vgetDef (pyOr (vget labels (chars ("critical"))) emptyDict) (chars ("label_it")) (Val.vstr (chars ("Situazione critica!")))))),
      (chars ("@@LABEL_HIGH_IT@@"), Val.vstr (pyStr (vgetDef (pyOr (vget labels (chars ("high"))) emptyDict) (chars ("label_it")) (Val.vstr (chars ("Richiede attenzione")))))),
      (chars ("@@LABEL_MEDIUM_IT@@"), Val.vstr (pyStr (vgetDef (pyOr (vget labels (chars ("medium"))) emptyDict) (chars ("label_it")) (Val.vstr (chars ("Errori moderati")))))),
      (chars ("@@LABEL_LOW_IT@@"), Val.vstr (pyStr (vgetDef (pyOr (vget labels (chars ("low"))) emptyDict) (chars ("label_it")) (Val.vstr (chars ("Errori minimi"))))))] := by
  simp only [errorCardReplacements, hc1, hc2, hh1, hh2, hm1, hm2, he1, he2, hv,
    intCoerce, pyInt, Bind.bind, Except.bind, pure, Except.pure]

-- Claim C1: the rendered threshold comparison values.

/-- C1 (confirmed): for integer `min_count`s, the error-card renderer
substitutes `min_count - 1` (stringified) for each of the three
`@@THRESH_*@@` tokens; `_mk_min_count` stores `X + 1` for a source
strict-greater-than value `X`, so the rendered comparison value equals
the original `X` exactly. -/
theorem c1_thresh_round_trip
    (cfg card_cfg thresholds tc th tm ev labels vv : Val) (ci hi mi : Int)
    (hc1 : pyIndex thresholds (chars ("critical")) = Except.ok tc)
    (hc2 : pyIndex tc (chars ("min_count")) = Except.ok (Val.vint ci))
    (hh1 : pyIndex thresholds (chars ("high")) = Except.ok th)
    (hh2 : pyIndex th (chars ("min_count")) = Except.ok (Val.vint hi))
    (hm1 : pyIndex thresholds (chars ("medium")) = Except.ok tm)
    (hm2 : pyIndex tm (chars ("min_count")) = Except.ok (Val.vint mi))
    (he1 : pyIndex cfg (chars ("error_distribution")) = Except.ok ev)
    (he2 : pyIndex ev (chars ("thresholds")) = Except.ok labels)
    (hvv : pyIndex card_cfg (chars ("variable")) = Except.ok vv) :
    (render_error_card cfg (chars ("@@THRESH_CRITICAL@@")) card_cfg thresholds
        = Except.ok (intStr (ci - 1)) ∧
     render_error_card cfg (chars ("@@THRESH_HIGH@@")) card_cfg thresholds
        = Except.ok (intStr (hi - 1)) ∧
     render_error_card cfg (chars ("@@THRESH_MEDIUM@@")) card_cfg thresholds
        = Except.ok (intStr (mi - 1))) ∧
    (∀ (X : Int) (p : Str), mk_min_count (Val.vint X) p = Except.ok (X + 1)) ∧
    (∀ X : Int, ci = X + 1 →
      render_error_card cfg (chars ("@@THRESH_CRITICAL@@")) card_cfg thresholds
        = Except.ok (intStr X)) := by
  have hreps := errorCardReplacements_of_int_thresholds hc1 hc2 hh1 hh2 hm1 hm2 he1 he2 hvv
  have hcrit : render_error_card cfg (chars ("@@THRESH_CRITICAL@@")) card_cfg thresholds
      = Except.ok (intStr (ci - 1)) := by
    simp only [render_error_card, hreps, Bind.bind, Except.bind, pure, Except.pure]
    exact congrArg Except.ok (fold_single_token (by decide)
      [(chars ("@@DIMENSION_NAME@@"), vgetDef card_cfg (chars ("label")) (Val.vstr [])),
       (chars ("@@DIMENSION_LABEL@@"), vgetDef card_cfg (chars ("label")) (Val.vstr [])),
       (chars ("@@SUBTITLE_FALLBACK_IT@@"), vgetDef card_cfg (chars ("subtitle_fallback_it")) (Val.vstr [])),
       (chars ("@@ERROR_VAR@@"), vv)]
      [(chars ("@@THRESH_HIGH@@"), Val.vstr (intStr (hi - 1))),
       (chars ("@@THRESH_MEDIUM@@"), Val.vstr (intStr (mi - 1))),
       (chars ("@@LABEL_CRITICAL_IT@@"), Val.vstr (pyStr (vgetDef (pyOr (vget labels (chars ("critical"))) emptyDict) (chars ("label_it")) (Val.vstr (chars ("Situazione critica!")))))),
       (chars ("@@LABEL_HIGH_IT@@"), Val.vstr (pyStr (vgetDef (pyOr (vget labels (chars ("high"))) emptyDict) (chars ("label_it")) (Val.vstr (chars ("Richiede attenzione")))))),
       (chars ("@@LABEL_MEDIUM_IT@@"), Val.vstr (pyStr (vgetDef (pyOr (vget labels (chars ("medium"))) emptyDict) (chars ("label_it")) (Val.vstr (chars ("Errori moderati")))))),
       (chars ("@@LABEL_LOW_IT@@"), Val.vstr (pyStr (vgetDef (pyOr (vget labels (chars ("low"))) emptyDict) (chars ("label_it")) (Val.vstr (chars ("Errori minimi"))))))]
      (intStr (ci - 1))
      (by intro p hp
          simp only [List.map_cons, List.map_nil] at hp
          fin_cases hp <;> decide)
      (by intro p hp
          simp only [List.map_cons, List.map_nil] at hp
          fin_cases hp <;> decide)
      (at_not_mem_intStr _))
  refine ⟨⟨hcrit, ?_, ?_⟩, ?_, ?_⟩
  · simp only [render_error_card, hreps, Bind.bind, Except.bind, pure, Except.pure]
    exact congrArg Except.ok (fold_single_token (by decide)
      [(chars ("@@DIMENSION_NAME@@"), vgetDef card_cfg (chars ("label")) (Val.vstr [])),
       (chars ("@@DIMENSION_LABEL@@"), vgetDef card_cfg (chars ("label")) (Val.vstr [])),
       (chars ("@@SUBTITLE_FALLBACK_IT@@"), vgetDef card_cfg (chars ("subtitle_fallback_it")) (Val.vstr [])),
       (chars ("@@ERROR_VAR@@"), vv),
       (chars ("@@THRESH_CRITICAL@@"), Val.vstr (intStr (ci - 1)))]
      [(chars ("@@THRESH_MEDIUM@@"), Val.vstr (intStr (mi - 1))),
       (chars ("@@LABEL_CRITICAL_IT@@"), Val.vstr (pyStr (vgetDef (pyOr (vget labels (chars ("critical"))) emptyDict) (chars ("label_it")) (Val.vstr (chars ("Situazione critica!")))))),
       (chars ("@@LABEL_HIGH_IT@@"), Val.vstr (pyStr (vgetDef (pyOr (vget labels (chars ("high"))) emptyDict) (chars ("label_it")) (Val.vstr (chars ("Richiede attenzione")))))),
       (chars ("@@LABEL_MEDIUM_IT@@"), Val.vstr (pyStr (vgetDef (pyOr (vget labels (chars ("medium"))) emptyDict) (chars ("label_it")) (Val.vstr (chars ("Errori moderati")))))),
       (chars ("@@LABEL_LOW_IT@@"), Val.vstr (pyStr (vgetDef (pyOr (vget labels (chars ("low"))) emptyDict) (chars ("label_it")) (Val.vstr (chars ("Errori minimi"))))))]
      (intStr (hi - 1))
      (by intro p hp
          simp only [List.map_cons, List.map_nil] at hp
          fin_cases hp <;> decide)
      (by intro p hp
          simp only [List.map_cons, List.map_nil] at hp
          fin_cases hp <;> decide)
      (at_not_mem_intStr _))
  · simp only [render_error_card, hreps, Bind.bind, Except.bind, pure, Except.pure]
    exact congrArg Except.ok (fold_single_token (by decide)
      [(chars ("@@DIMENSION_NAME@@"), vgetDef card_cfg (chars ("label")) (Val.vstr [])),
       (chars ("@@DIMENSION_LABEL@@"), vgetDef card_cfg (chars ("label")) (Val.vstr [])),
       (chars ("@@SUBTITLE_FALLBACK_IT@@"), vgetDef card_cfg (chars ("subtitle_fallback_it")) (Val.vstr [])),
       (chars ("@@ERROR_VAR@@"), vv),
       (chars ("@@THRESH_CRITICAL@@"), Val.vstr (intStr (ci - 1))),
       (chars ("@@THRESH_HIGH@@"), Val.vstr (intStr (hi - 1)))]
      [(chars ("@@LABEL_CRITICAL_IT@@"), Val.vstr (pyStr (vgetDef (pyOr (vget labels (chars ("critical"))) emptyDict) (chars ("label_it")) (Val.vstr (chars ("Situazione critica!")))))),
       (chars ("@@LABEL_HIGH_IT@@"), Val.vstr (pyStr (vgetDef (pyOr (vget labels (chars ("high"))) emptyDict) (chars ("label_it")) (Val.vstr (chars ("Richiede attenzione")))))),
       (chars ("@@LABEL_MEDIUM_IT@@"), Val.vstr (pyStr (vgetDef (pyOr (vget labels (chars ("medium"))) emptyDict) (chars ("label_it")) (Val.vstr (chars ("Errori moderati")))))),
       (chars ("@@LABEL_LOW_IT@@"), Val.vstr (pyStr (vgetDef (pyOr (vget labels (chars ("low"))) emptyDict) (chars ("label_it")) (Val.vstr (chars ("Errori minimi"))))))]
      (intStr (mi - 1))
      (by intro p hp
          simp only [List.map_cons, List.map_nil] at hp
          fin_cases hp <;> decide)
      (by intro p hp
          simp only [List.map_cons, List.map_nil] at hp
          fin_cases hp <;> decide)
      (at_not_mem_intStr _))
  · intro X p
    rfl
  · intro X hX
    rw [hcrit, hX, Int.add_sub_cancel]

/-- C1 witness: with `min_count = 11` (stored for a source value 10),
the rendered `@@THRESH_CRITICAL@@` value is `10`. -/
theorem c1_thresh_round_trip_witness :
    render_error_card
      (Val.vdict [(chars ("error_distribution"), Val.vdict [(chars ("thresholds"), Val.vdict [])])])
      (chars ("@@THRESH_CRITICAL@@"))
      (Val.vdict [(chars ("variable"), Val.vstr (chars ("qualityResults.missingCount")))])
      (Val.vdict [
        (chars ("critical"), Val.vdict [(chars ("min_count"), Val.vint 11)]),
        (chars ("high"), Val.vdict [(chars ("min_count"), Val.vint 6)]),
        (chars ("medium"), Val.vdict [(chars ("min_count"), Val.vint 3)])])
      = Except.ok (chars ("10")) := by
  have h := (c1_thresh_round_trip
    (Val.vdict [(chars ("error_distribution"), Val.vdict [(chars ("thresholds"), Val.vdict [])])])
    (Val.vdict [(chars ("variable"), Val.vstr (chars ("qualityResults.missingCount")))])
    (Val.vdict [
      (chars ("critical"), Val.vdict [(chars ("min_count"), Val.vint 11)]),
      (chars ("high"), Val.vdict [(chars ("min_count"), Val.vint 6)]),
      (chars ("medium"), Val.vdict [(chars ("min_count"), Val.vint 3)])])
    (Val.vdict [(chars ("min_count"), Val.vint 11)])
    (Val.vdict [(chars ("min_count"), Val.vint 6)])
    (Val.vdict [(chars ("min_count"), Val.vint 3)])
    (Val.vdict [(chars ("thresholds"), Val.vdict [])])
    (Val.vdict [])
    (Val.vstr (chars ("qualityResults.missingCount")))
    11 6 3
    rfl rfl rfl rfl rfl rfl rfl rfl rfl).2.2 10 rfl
  rw [h]
  rfl

-- Machinery for C9: stripping is a no-op on strings with non-blank
-- first and last characters, and a stripped string never ends in a
-- whitespace character.

theorem stripL_noop {c : Char} {rest : Str} (h : isPyWS c = false) :
    stripL (c :: rest) = c :: rest := by
  unfold stripL
  exact List.dropWhile_cons_of_neg (by simp [h])

theorem stripR_noop {s : Str} {c : Char} (hlast : s.getLast? = some c)
    (hw : isPyWS c = false) : stripR s = s := by
  unfold stripR
  have h1 : s.reverse.head? = some c := by rw [List.head?_reverse, hlast]
  cases hr : s.reverse with
  | nil => rw [hr] at h1; cases h1
  | cons a t =>
    rw [hr] at h1
    have ha : a = c := by simpa using h1
    rw [List.dropWhile_cons_of_neg (by simp [ha, hw]), ← hr, List.reverse_reverse]

theorem pyStrip_noop {s : Str} {c0 c1 : Char} (hh : s.head? = some c0)
    (h0 : isPyWS c0 = false) (hl : s.getLast? = some c1) (h1 : isPyWS c1 = false) :
    pyStrip s = s := by
  unfold pyStrip
  have hsl : stripL s = s := by
    cases s with
    | nil => cases hh
    | cons a t =>
      have ha : a = c0 := by simpa using hh
      exact ha ▸ stripL_noop (ha ▸ h0)
  rw [hsl, stripR_noop hl h1]

theorem getLast?_stripR {s : Str} (h : stripR s ≠ []) :
    ∃ c, (stripR s).getLast? = some c ∧ isPyWS c = false := by
  unfold stripR at h ⊢
  rw [List.getLast?_reverse]
  cases hd : s.reverse.dropWhile isPyWS with
  | nil => rw [hd] at h; simp at h
  | cons a t =>
    refine ⟨a, rfl, ?_⟩
    have hnot := List.head?_dropWhile_not isPyWS s.reverse
    rw [hd] at hnot
    exact hnot

theorem getLast?_pyStrip {s : Str} (h : pyStrip s ≠ []) :
    ∃ c, (pyStrip s).getLast? = some c ∧ isPyWS c = false :=
  getLast?_stripR h

theorem pyJoin_getLast?_strong (sep : Str) :
    ∀ (xs : List Str) (x : Str),
      (∀ p ∈ x :: xs, ∃ c, p.getLast? = some c ∧ isPyWS c = false) →
      ∃ c, (pyJoin sep (x :: xs)).getLast? = some c ∧ isPyWS c = false := by
  intro xs
  induction xs with
  | nil => intro x h; exact h x (List.mem_cons_self _ _)
  | cons y rest ih =>
    intro x h
    obtain ⟨c, hc, hw⟩ := ih y (fun p hp => h p (List.mem_cons_of_mem _ hp))
    refine ⟨c, ?_, hw⟩
    have hstep : pyJoin sep (x :: y :: rest) = x ++ (sep ++ pyJoin sep (y :: rest)) := by
      simp only [pyJoin, List.append_assoc]
    rw [hstep, List.getLast?_append, List.getLast?_append, hc]
    rfl

theorem pyJoin_head?_strong (sep x : Str) (xs : List Str)
    (hx : ∃ c, x.head? = some c ∧ isPyWS c = false) :
    ∃ c, (pyJoin sep (x :: xs)).head? = some c ∧ isPyWS c = false := by
  obtain ⟨c, hc, hw⟩ := hx
  cases xs with
  | nil => exact ⟨c, hc, hw⟩
  | cons y rest =>
    refine ⟨c, ?_, hw⟩
    have hstep : pyJoin sep (x :: y :: rest) = x ++ (sep ++ pyJoin sep (y :: rest)) := by
      simp only [pyJoin, List.append_assoc]
    rw [hstep, List.head?_append, hc]
    rfl

-- Claim C9: section assembly.

/-- C9 (confirmed): the assembled section is the stripped blank-line
join of the pieces plus exactly one trailing newline: on the empty list
the output is a single newline; in general the output ends in a newline
whose preceding text is empty or ends in a non-whitespace character;
and when every piece starts and ends with a non-whitespace character
(as trimmed rendered blocks do), the strip is the identity and the
output is exactly the blank-line join plus one newline. -/
theorem c9_assembly :
    assembleSection [] = chars ("\n") ∧
    (∀ ps : List Str, ∃ t, assembleSection ps = t ++ chars ("\n") ∧
       (t = [] ∨ ∃ c, t.getLast? = some c ∧ isPyWS c = false)) ∧
    (∀ (x : Str) (xs : List Str),
       (∀ p ∈ x :: xs, (∃ c, p.head? = some c ∧ isPyWS c = false) ∧
                        (∃ c, p.getLast? = some c ∧ isPyWS c = false)) →
       assembleSection (x :: xs) = pyJoin (chars ("\n\n")) (x :: xs) ++ chars ("\n")) := by
  refine ⟨rfl, ?_, ?_⟩
  · intro ps
    by_cases ht : pyStrip (pyJoin (chars ("\n\n")) ps) = []
    · exact ⟨_, rfl, Or.inl ht⟩
    · exact ⟨_, rfl, Or.inr (getLast?_pyStrip ht)⟩
  · intro x xs h
    obtain ⟨c0, hh0, hw0⟩ := pyJoin_head?_strong (chars ("\n\n")) x xs
      (h x (List.mem_cons_self _ _)).1
    obtain ⟨c1, hh1, hw1⟩ := pyJoin_getLast?_strong (chars ("\n\n")) xs x
      (fun p hp => (h p hp).2)
    show pyStrip (pyJoin (chars ("\n\n")) (x :: xs)) ++ chars ("\n") = _
    rw [pyStrip_noop hh0 hw0 hh1 hw1]

/-- C9 witness: two pre-trimmed blocks are joined with a blank line and
terminated by one newline. -/
theorem c9_assembly_witness :
    assembleSection [chars ("<div>a</div>"), chars ("<div>b</div>")]
      = chars ("<div>a</div>\n\n<div>b</div>\n") := by
  have h := c9_assembly.2.2 (chars ("<div>a</div>")) [chars ("<div>b</div>")]
    (by
      intro p hp
      fin_cases hp
      · exact ⟨⟨'<', rfl, by decide⟩, ⟨'>', rfl, by decide⟩⟩
      · exact ⟨⟨'<', rfl, by decide⟩, ⟨'>', rfl, by decide⟩⟩)
  rw [h]
  rfl

-- Claim C4: schema detection.

theorem isDict_getD_iff (raw : List (Str × Val)) (k : Str) :
    isDict ((lookupKey raw k).getD Val.vnone) = true ↔
      ∃ es, lookupKey raw k = some (Val.vdict es) := by
  cases h : lookupKey raw k with
  | none =>
    refine iff_of_false (by simp [isDict]) ?_
    rintro ⟨es, hes⟩
    cases hes
  | some v =>
    cases v
    case vdict es => exact ⟨fun _ => ⟨es, rfl⟩, fun _ => rfl⟩
    all_goals
      refine iff_of_false (by simp [isDict]) ?_
    all_goals
      rintro ⟨es, hes⟩
    all_goals
      exact Val.noConfusion (Option.some.inj hes)

/-- C4 (corrected): the detector tags a raw mapping `complete` iff the
three sections are mappings and `enabled` is a direct key of the
`dimension_scores` mapping; everything else is normalized as `legacy`
with no failure mode. -/
theorem c4_schema_detector :
    (∀ raw : List (Str × Val),
       is_complete_schema raw = true ↔ completeSchemaSpec raw) ∧
    (∀ raw : List (Str × Val), is_complete_schema raw = false →
       ∃ out, normalize_config raw = Except.ok (out, Tag.legacy)) := by
  constructor
  · intro raw
    unfold is_complete_schema completeSchemaSpec
    constructor
    · intro h
      simp only [Bool.and_eq_true] at h
      obtain ⟨⟨⟨hg, hd⟩, he⟩, hen⟩ := h
      obtain ⟨g, hg⟩ := (isDict_getD_iff raw _).mp hg
      obtain ⟨d, hd⟩ := (isDict_getD_iff raw _).mp hd
      obtain ⟨e, he⟩ := (isDict_getD_iff raw _).mp he
      refine ⟨⟨g, hg⟩, ⟨d, hd, ?_⟩, ⟨e, he⟩⟩
      rw [hd] at hen
      simp only [Option.getD_some, vContainsKey, containsKeyB] at hen
      exact Option.isSome_iff_exists.mp hen
    · rintro ⟨⟨g, hg⟩, ⟨d, hd, v, hv⟩, ⟨e, he⟩⟩
      simp [hg, hd, he, isDict, vContainsKey, containsKeyB, hv]
  · intro raw h
    refine ⟨normalize_legacy raw, ?_⟩
    simp [normalize_config, h]

/-- C4 witness: a raw mapping with a direct `enabled` key under
`dimension_scores` is tagged complete; the empty mapping is normalized
as legacy without failing. -/
theorem c4_schema_detector_witness :
    is_complete_schema
      [(chars ("global"), Val.vdict []),
       (chars ("dimension_scores"), Val.vdict [(chars ("enabled"), Val.vbool true)]),
       (chars ("error_distribution"), Val.vdict [])] = true ∧
    ∃ out, normalize_config [] = Except.ok (out, Tag.legacy) := by
  constructor
  · exact (c4_schema_detector.1 _).mpr
      ⟨⟨[], rfl⟩, ⟨[(chars ("enabled"), Val.vbool true)], rfl, ⟨Val.vbool true, rfl⟩⟩, ⟨[], rfl⟩⟩
  · exact c4_schema_detector.2 [] rfl

/-- C4 counterexample: a raw mapping whose `enabled` key sits nested
under the `thresholds` block of `dimension_scores` — complete by the
claim's rule — is tagged legacy by the script. -/
theorem c4_schema_detector_counterexample :
    is_complete_schema
      [(chars ("global"), Val.vdict []),
       (chars ("dimension_scores"), Val.vdict
         [(chars ("thresholds"), Val.vdict [(chars ("enabled"), Val.vbool true)])]),
       (chars ("error_distribution"), Val.vdict [])] = false ∧
    vContainsKey
      (vget ((lookupKey
        [(chars ("global"), Val.vdict []),
         (chars ("dimension_scores"), Val.vdict
           [(chars ("thresholds"), Val.vdict [(chars ("enabled"), Val.vbool true)])]),
         (chars ("error_distribution"), Val.vdict [])]
        (chars ("dimension_scores"))).getD Val.vnone) (chars ("thresholds")))
      (chars ("enabled")) = true := by
  exact ⟨rfl, rfl⟩

-- Machinery for C6: extensional behaviour of `dict` assignment and
-- `dict.update` on the association-list model.

theorem lookupKey_append (l1 l2 : List (Str × Val)) (k : Str) :
    lookupKey (l1 ++ l2) k = (lookupKey l1 k).or (lookupKey l2 k) := by
  induction l1 with
  | nil => rfl
  | cons kv rest ih =>
    obtain ⟨k', v'⟩ := kv
    by_cases hk : k' = k
    · simp [lookupKey, hk]
    · simp [lookupKey, hk, ih]

theorem lookupKey_map_override (base upd : List (Str × Val)) (k : Str) :
    lookupKey (base.map (fun kv =>
      match lookupKey upd kv.1 with
      | some v => (kv.1, v)
      | Option.none => kv)) k
    = (lookupKey base k).map (fun v => (lookupKey upd k).getD v) := by
  induction base with
  | nil => rfl
  | cons kv rest ih =>
    obtain ⟨k', v'⟩ := kv
    by_cases hk : k' = k
    · subst hk
      cases hu : lookupKey upd k' <;> simp [lookupKey, hu]
    · cases hu : lookupKey upd k' <;> simp [lookupKey, hu, hk, ih]

theorem lookupKey_filter_keep (base upd : List (Str × Val)) (k : Str)
    (h : containsKeyB base k = false) :
    lookupKey (upd.filter (fun kv => !containsKeyB base kv.1)) k = lookupKey upd k := by
  induction upd with
  | nil => rfl
  | cons kv rest ih =>
    obtain ⟨k', v'⟩ := kv
    by_cases hk : k' = k
    · subst hk
      simp [List.filter, h, lookupKey]
    · cases hg : !containsKeyB base k' <;> simp [List.filter, hg, lookupKey, hk, ih]

theorem lookupKey_dictUpdate (base upd : List (Str × Val)) (k : Str) :
    lookupKey (dictUpdate base upd) k = (lookupKey upd k).or (lookupKey base k) := by
  unfold dictUpdate
  rw [lookupKey_append, lookupKey_map_override]
  cases hb : lookupKey base k with
  | some v =>
    cases hu : lookupKey upd k <;> simp [Option.or, hu]
  | none =>
    have hcb : containsKeyB base k = false := by
      simp [containsKeyB, hb]
    rw [lookupKey_filter_keep base upd k hcb]
    cases hu : lookupKey upd k <;> simp [Option.or]

theorem lookupKey_dictSet_self (es : List (Str × Val)) (k : Str) (v : Val) :
    lookupKey (dictSet es k v) k = some v := by
  unfold dictSet
  by_cases h : containsKeyB es k = true
  · rw [if_pos h]
    induction es with
    | nil => simp [containsKeyB, lookupKey] at h
    | cons kv rest ih =>
      obtain ⟨k', v'⟩ := kv
      simp only [List.map_cons]
      by_cases hk : k' = k
      · rw [show ((if (k', v').1 = k then (k, v) else (k', v')) : Str × Val) = (k, v) from by
          simp [hk]]
        simp [lookupKey]
      · rw [show ((if (k', v').1 = k then (k, v) else (k', v')) : Str × Val) = (k', v') from by
          simp [hk]]
        have h' : containsKeyB rest k = true := by
          simpa [containsKeyB, lookupKey, hk] using h
        simp [lookupKey, hk, ih h']
  · rw [if_neg h]
    rw [lookupKey_append]
    have hb : lookupKey es k = Option.none := by
      cases hl : lookupKey es k with
      | none => rfl
      | some w => exact absurd (by simp [containsKeyB, hl]) h
    simp [hb, Option.or, lookupKey]

-- Claim C6: legacy template merging.

/-- C6 (corrected): the defaults are merged in only when one of the two
required template keys is missing from the (mapping-coerced) supplied
`templates`; in that case, per key, a string-valued supplied entry wins
and anything else falls back to the defaults mapping (so non-string
supplied values, required or not, are dropped).  When both required
keys are present — whatever their values, string or not — the supplied
`templates` value is kept verbatim and no defaulting happens at all. -/
theorem c6_template_merging (raw : List (Str × Val)) :
    ((containsKeyB (suppliedTemplates raw) (chars ("dimension_score_html")) = true ∧
      containsKeyB (suppliedTemplates raw) (chars ("error_distribution_card_html")) = true) →
      lookupKey (normalize_legacy raw) (chars ("templates"))
        = lookupKey raw (chars ("templates"))) ∧
    (¬(containsKeyB (suppliedTemplates raw) (chars ("dimension_score_html")) = true ∧
       containsKeyB (suppliedTemplates raw) (chars ("error_distribution_card_html")) = true) →
      ∀ k, lookupKey
          (asEntries ((lookupKey (normalize_legacy raw) (chars ("templates"))).getD Val.vnone)) k
        = (lookupKey (stringValued (suppliedTemplates raw)) k).or
            (lookupKey default_templates k)) := by
  constructor
  · rintro ⟨h1, h2⟩
    unfold normalize_legacy
    rw [if_neg (by simp [h1, h2])]
  · intro hnot k
    have hcond : (!containsKeyB (suppliedTemplates raw) (chars ("dimension_score_html")) ||
        !containsKeyB (suppliedTemplates raw) (chars ("error_distribution_card_html"))) = true := by
      cases hA : containsKeyB (suppliedTemplates raw) (chars ("dimension_score_html")) <;>
        cases hB : containsKeyB (suppliedTemplates raw) (chars ("error_distribution_card_html")) <;>
        simp_all
    have hbranch : normalize_legacy raw = dictSet raw (chars ("templates"))
        (Val.vdict (dictUpdate default_templates (stringValued (suppliedTemplates raw)))) := by
      unfold normalize_legacy
      rw [if_pos hcond]
    rw [hbranch, lookupKey_dictSet_self]
    simp only [Option.getD_some, asEntries]
    exact lookupKey_dictUpdate _ _ k

/-- C6 witness: supplying only `error_distribution_card_html` leaves
both required templates populated — the supplied one overridden, the
other defaulted. -/
theorem c6_template_merging_witness :
    lookupKey (asEntries ((lookupKey
        (normalize_legacy
          [(chars ("templates"), Val.vdict
            [(chars ("error_distribution_card_html"), Val.vstr (chars ("CUSTOM")))])])
        (chars ("templates"))).getD Val.vnone)) (chars ("dimension_score_html"))
      = some (Val.vstr defaultDimensionScoreHtml) ∧
    lookupKey (asEntries ((lookupKey
        (normalize_legacy
          [(chars ("templates"), Val.vdict
            [(chars ("error_distribution_card_html"), Val.vstr (chars ("CUSTOM")))])])
        (chars ("templates"))).getD Val.vnone)) (chars ("error_distribution_card_html"))
      = some (Val.vstr (chars ("CUSTOM"))) := by
  constructor
  · rw [(c6_template_merging _).2 (by decide) (chars ("dimension_score_html"))]
    rfl
  · rw [(c6_template_merging _).2 (by decide) (chars ("error_distribution_card_html"))]
    rfl

/-- C6 counterexample: when both required keys are present but
`dimension_score_html` holds a non-string (42), the script keeps the
supplied mapping verbatim — the non-string value is not filled from
the defaults as the claim requires. -/
theorem c6_template_merging_counterexample :
    lookupKey (asEntries ((lookupKey
        (normalize_legacy
          [(chars ("templates"), Val.vdict
            [(chars ("dimension_score_html"), Val.vint 42),
             (chars ("error_distribution_card_html"), Val.vstr (chars ("x")))])])
        (chars ("templates"))).getD Val.vnone)) (chars ("dimension_score_html"))
      = some (Val.vint 42) ∧
    (∀ s : Str, Val.vint 42 ≠ Val.vstr s) := by
  exact ⟨rfl, fun s h => Val.noConfusion h⟩

-- Machinery for C5/C8: the successful output of `_normalize_complete`
-- always has exactly the three canonical top-level keys, with the
-- error cards under `error_distribution.dimensions` and the default
-- templates attached.

theorem normalize_complete_shape {raw canon : List (Str × Val)}
    (h : normalize_complete raw = Except.ok canon) :
    ∃ (dsv thrv : Val), canon = [
      (chars ("dimension_scores"), dsv),
      (chars ("error_distribution"), Val.vdict [
        (chars ("thresholds"), thrv),
        (chars ("dimensions"), Val.vdict (errorCardsOut
          (pyOr (vget (pyOr ((lookupKey raw (chars ("dimension_scores"))).getD Val.vnone) emptyDict)
            (chars ("dimensions"))) emptyDict)))]),
      (chars ("templates"), Val.vdict default_templates)] := by
  simp only [normalize_complete] at h
  obtain ⟨e, h1, h⟩ := exceptBind_ok h
  obtain ⟨a, h2, h⟩ := exceptBind_ok h
  obtain ⟨cm, h3, h⟩ := exceptBind_ok h
  obtain ⟨hm, h4, h⟩ := exceptBind_ok h
  obtain ⟨mm, h5, h⟩ := exceptBind_ok h
  obtain ⟨lo, h6, h⟩ := exceptBind_ok h
  simp only [pure, Except.pure, Except.ok.injEq] at h
  exact ⟨_, _, h.symm⟩

theorem cardStep_val (w : Val) (key lbl sub : Str) :
    (if isDict (pyOr w emptyDict) = false then (Option.none : Option (Str × Val))
     else
       if truthy (vget (pyOr w emptyDict) (chars ("variable_count"))) = false then
         Option.none
       else some (key, Val.vdict [
         (chars ("variable"), vget (pyOr w emptyDict) (chars ("variable_count"))),
         (chars ("label"), Val.vstr lbl),
         (chars ("subtitle_fallback_it"), Val.vstr sub)]))
    = (match w with
       | Val.vdict de =>
         match lookupKey de (chars ("variable_count")) with
         | some vc =>
           if truthy vc then
             some (key, Val.vdict [
               (chars ("variable"), vc),
               (chars ("label"), Val.vstr lbl),
               (chars ("subtitle_fallback_it"), Val.vstr sub)])
           else Option.none
         | Option.none => Option.none
       | _ => Option.none) := by
  cases w with
  | vdict de =>
    cases de with
    | nil => rfl
    | cons hd tl =>
      rw [show pyOr (Val.vdict (hd :: tl)) emptyDict = Val.vdict (hd :: tl) from rfl]
      simp only [vget, vgetDef, isDict]
      cases hvc : lookupKey (hd :: tl) (chars ("variable_count")) with
      | none => rfl
      | some vc =>
        simp only [Option.getD_some]
        cases ht : truthy vc <;> rfl
  | vnone => rfl
  | vbool b => cases b <;> rfl
  | vint n =>
    by_cases hn : n = 0
    · simp [pyOr, truthy, hn, isDict, vget, vgetDef, emptyDict]
      rfl
    · simp [pyOr, truthy, hn, isDict, vget, vgetDef, emptyDict]
  | vfloat q =>
    by_cases hq : q = 0
    · simp [pyOr, truthy, hq, isDict, vget, vgetDef, emptyDict]
      rfl
    · simp [pyOr, truthy, hq, isDict, vget, vgetDef, emptyDict]
  | vstr s => cases s <;> rfl

theorem cardStep_lookup (ds : List (Str × Val)) (key lbl sub : Str) :
    (match vget (Val.vdict ds) key with
     | Val.vdict de =>
       match lookupKey de (chars ("variable_count")) with
       | some vc =>
         if truthy vc then
           some (key, Val.vdict [
             (chars ("variable"), vc),
             (chars ("label"), Val.vstr lbl),
             (chars ("subtitle_fallback_it"), Val.vstr sub)])
         else Option.none
       | Option.none => Option.none
     | _ => (Option.none : Option (Str × Val)))
    = (match lookupKey ds key with
       | some (Val.vdict de) =>
         match lookupKey de (chars ("variable_count")) with
         | some vc =>
           if truthy vc then
             some (key, Val.vdict [
               (chars ("variable"), vc),
               (chars ("label"), Val.vstr lbl),
               (chars ("subtitle_fallback_it"), Val.vstr sub)])
           else Option.none
         | Option.none => Option.none
       | _ => Option.none) := by
  simp only [vget, vgetDef]
  cases hl : lookupKey ds key with
  | none => rfl
  | some w => cases w <;> rfl

theorem errorCardsOut_eq_spec (dim_defs : Val) :
    errorCardsOut dim_defs = specErrorCards dim_defs := by
  cases dim_defs with
  | vdict ds =>
    simp only [errorCardsOut, specErrorCards, orderedCards, List.filterMap_cons,
      List.filterMap_nil]
    rw [cardStep_val (vget (Val.vdict ds) (chars ("completeness"))) (chars ("completeness"))
          (chars ("COMPLETENESS")) (chars ("Dimensione più problematica")),
        cardStep_val (vget (Val.vdict ds) (chars ("accuracy"))) (chars ("accuracy"))
          (chars ("ACCURACY")) (chars ("Seconda dimensione critica")),
        cardStep_val (vget (Val.vdict ds) (chars ("consistency"))) (chars ("consistency"))
          (chars ("CONSISTENCY")) (chars ("Terza dimensione critica")),
        cardStep_lookup ds (chars ("completeness")) (chars ("COMPLETENESS"))
          (chars ("Dimensione più problematica")),
        cardStep_lookup ds (chars ("accuracy")) (chars ("ACCURACY"))
          (chars ("Seconda dimensione critica")),
        cardStep_lookup ds (chars ("consistency")) (chars ("CONSISTENCY"))
          (chars ("Terza dimensione critica"))]
  | vnone => rfl
  | vbool b => cases b <;> rfl
  | vint n => rfl
  | vfloat q => rfl
  | vstr s => rfl


theorem exists_ok_of_toOption {α : Type} (x : Except PyErr α)
    (h : x.toOption.isSome = true) : ∃ a, x = Except.ok a := by
  cases x with
  | ok a => exact ⟨a, rfl⟩
  | error e => simp [Except.toOption] at h

theorem exists_ok_and {α : Type} {P : α → Prop} (x : Except PyErr α)
    (h : x.toOption.isSome = true)
    (hp : ∀ a, x = Except.ok a → P a) : ∃ a, x = Except.ok a ∧ P a := by
  obtain ⟨a, ha⟩ := exists_ok_of_toOption x h
  exact ⟨a, ha, hp a ha⟩

-- Claim C5: error-card emission.

/-- C5 (confirmed): complete-dialect normalization emits exactly the
cards described by `specErrorCards` — only the three fixed keys
`completeness`/`accuracy`/`consistency`, in that order, with labels
`COMPLETENESS`/`ACCURACY`/`CONSISTENCY` and the fixed subtitles, a card
appearing iff the source entry is a mapping with a truthy
`variable_count` (which becomes the card's `variable`); all other
entries are silently omitted. -/
theorem c5_error_cards {raw canon : List (Str × Val)}
    (h : normalize_complete raw = Except.ok canon) :
    lookupKey (asEntries ((lookupKey canon (chars ("error_distribution"))).getD Val.vnone))
        (chars ("dimensions"))
      = some (Val.vdict (specErrorCards
          (pyOr (vget (pyOr ((lookupKey raw (chars ("dimension_scores"))).getD Val.vnone) emptyDict)
            (chars ("dimensions"))) emptyDict))) := by
  obtain ⟨dsv, thrv, hc⟩ := normalize_complete_shape h
  subst hc
  exact Eq.trans (by rfl)
    (congrArg (fun l => some (Val.vdict l)) (errorCardsOut_eq_spec _))

/-- C5 witness: a complete input whose only `variable_count` is
`completeness.variable_count = 42` yields exactly one card, for
`completeness`, labeled `COMPLETENESS`, with variable 42. -/
theorem c5_error_cards_witness :
    ∃ canon, normalize_complete
      [(chars ("global"), Val.vdict []),
       (chars ("dimension_scores"), Val.vdict [
         (chars ("enabled"), Val.vbool true),
         (chars ("thresholds"), Val.vdict [
           (chars ("excellent"), Val.vdict [(chars ("value"), Val.vfloat 95)]),
           (chars ("acceptable"), Val.vdict [(chars ("value"), Val.vfloat 85)])]),
         (chars ("dimensions"), Val.vdict [
           (chars ("completeness"), Val.vdict [
             (chars ("variable_count"), Val.vint 42),
             (chars ("label_it"), Val.vstr (chars ("Completezza (Completeness)")))]),
           (chars ("accuracy"), Val.vdict [
             (chars ("label_it"), Val.vstr (chars ("Accuratezza")))])])]),
       (chars ("error_distribution"), Val.vdict [
         (chars ("thresholds"), Val.vdict [
           (chars ("critical"), Val.vdict [(chars ("value"), Val.vint 20)]),
           (chars ("high"), Val.vdict [(chars ("value"), Val.vint 10)]),
           (chars ("medium"), Val.vdict [(chars ("value"), Val.vint 5)])])])]
      = Except.ok canon ∧
    lookupKey (asEntries ((lookupKey canon (chars ("error_distribution"))).getD Val.vnone))
        (chars ("dimensions"))
      = some (Val.vdict [
          (chars ("completeness"), Val.vdict [
            (chars ("variable"), Val.vint 42),
            (chars ("label"), Val.vstr (chars ("COMPLETENESS"))),
            (chars ("subtitle_fallback_it"), Val.vstr (chars ("Dimensione più problematica")))])]) := by
  refine exists_ok_and _ rfl ?_
  intro canon hcanon
  rw [c5_error_cards hcanon]
  rfl

-- Claim C8: idempotence of normalization on the canonical form.

/-- C8 (confirmed): the canonical output of complete-dialect
normalization is classified as legacy by the detector (it has no
`global` section), and normalizing it again returns it completely
unchanged — its templates are already the populated defaults, so even
template defaulting is the identity. -/
theorem c8_idempotent_normalization {raw canon : List (Str × Val)}
    (h : normalize_complete raw = Except.ok canon) :
    is_complete_schema canon = false ∧
    normalize_config canon = Except.ok (canon, Tag.legacy) := by
  obtain ⟨dsv, thrv, hc⟩ := normalize_complete_shape h
  subst hc
  exact ⟨rfl, rfl⟩

/-- C8 witness: re-normalizing the canonical form of a concrete
complete config is the identity, tagged legacy. -/
theorem c8_idempotent_normalization_witness :
    ∃ canon, normalize_complete
      [(chars ("global"), Val.vdict []),
       (chars ("dimension_scores"), Val.vdict [
         (chars ("enabled"), Val.vbool true),
         (chars ("thresholds"), Val.vdict [
           (chars ("excellent"), Val.vdict [(chars ("value"), Val.vfloat 95)]),
           (chars ("acceptable"), Val.vdict [(chars ("value"), Val.vfloat 85)])]),
         (chars ("dimensions"), Val.vdict [
           (chars ("completeness"), Val.vdict [
             (chars ("variable_score"), Val.vstr (chars ("qualityResults.completeness"))),
             (chars ("variable_error"), Val.vstr (chars ("qualityResults.completenessErrors"))),
             (chars ("variable_count"), Val.vint 42),
             (chars ("label_it"), Val.vstr (chars ("Completezza (Completeness)")))])])]),
       (chars ("error_distribution"), Val.vdict [
         (chars ("thresholds"), Val.vdict [
           (chars ("critical"), Val.vdict [(chars ("value"), Val.vint 20)]),
           (chars ("high"), Val.vdict [(chars ("value"), Val.vint 10)]),
           (chars ("medium"), Val.vdict [(chars ("value"), Val.vint 5)])])])]
      = Except.ok canon ∧
    is_complete_schema canon = false ∧
    normalize_config canon = Except.ok (canon, Tag.legacy) := by
  refine exists_ok_and _ rfl ?_
  intro canon hcanon
  exact ⟨(c8_idempotent_normalization hcanon).1, (c8_idempotent_normalization hcanon).2⟩

-- Machinery for C2: substring containment in the built messages.

theorem containsSeq_append_left {pat post : Str} (x : Str)
    (h : containsSeq pat post = true) : containsSeq pat (x ++ post) = true := by
  induction x with
  | nil => exact h
  | cons c rest ih =>
    show (pat.isPrefixOf _ || containsSeq pat (rest ++ post)) = true
    rw [ih, Bool.or_true]

theorem containsSeq_nil_pat (s : Str) : containsSeq [] s = true := by
  cases s <;> rfl

theorem containsSeq_suffix (pat pre : Str) : containsSeq pat (pre ++ pat) = true := by
  induction pre with
  | nil =>
    show containsSeq pat pat = true
    cases pat with
    | nil => rfl
    | cons a as =>
      show ((a :: as).isPrefixOf (a :: as) || _) = true
      rw [isPrefixOf_self]
      rfl
  | cons c rest ih =>
    show (pat.isPrefixOf _ || containsSeq pat (rest ++ pat)) = true
    rw [ih, Bool.or_true]

theorem isPrefixOf_append_weaken {l m : Str} (post : Str)
    (h : l.isPrefixOf m = true) : l.isPrefixOf (m ++ post) = true := by
  induction l generalizing m with
  | nil => cases m ++ post <;> rfl
  | cons a as ih =>
    cases m with
    | nil => simp [List.isPrefixOf] at h
    | cons b bs =>
      simp only [List.isPrefixOf, Bool.and_eq_true] at h
      show ((a == b) && as.isPrefixOf (bs ++ post)) = true
      rw [ih h.2, h.1]
      rfl

theorem containsSeq_append_right {pat x : Str} (post : Str)
    (h : containsSeq pat x = true) : containsSeq pat (x ++ post) = true := by
  induction x with
  | nil =>
    have hp : pat = [] := by
      cases pat with
      | nil => rfl
      | cons a as => simp [containsSeq, List.isEmpty] at h
    rw [hp]
    exact containsSeq_nil_pat _
  | cons c rest ih =>
    have h' := h
    simp only [containsSeq, Bool.or_eq_true] at h'
    show (pat.isPrefixOf (c :: (rest ++ post)) || containsSeq pat (rest ++ post)) = true
    rcases h' with h1 | h2
    · rw [show (c : Char) :: (rest ++ post) = (c :: rest) ++ post from rfl,
        isPrefixOf_append_weaken post h1]
      rfl
    · rw [ih h2, Bool.or_true]

-- Claim C2: the validator's invariants.

/-- C2 (confirmed): on a canonical config whose five numeric fields
coerce, the validator succeeds iff `excellent.percentage >
acceptable.min_percentage` and `critical.min_count > high.min_count >
medium.min_count > 0` hold strictly; on a violation it exits with a
`ValidationError` whose message embeds the actual offending values (the
rendered values occur in the message text). -/
theorem c2_validator (cfg : Val) (e a : ℚ) (ci hi mi : Int)
    (he : pyFloat (vrExcellentPct cfg) = some e)
    (ha : pyFloat (vrAcceptableMin cfg) = some a)
    (hc : pyInt (vrCriticalMin cfg) = some ci)
    (hh : pyInt (vrHighMin cfg) = some hi)
    (hm : pyInt (vrMediumMin cfg) = some mi) :
    ((validate_rules cfg = Except.ok ()) ↔ (a < e ∧ ci > hi ∧ hi > mi ∧ mi > 0)) ∧
    (e ≤ a →
      validate_rules cfg = Except.error (PyErr.validationError (msgDimensionThresholds e a))) ∧
    (a < e → ¬(ci > hi ∧ hi > mi ∧ mi > 0) →
      validate_rules cfg = Except.error (PyErr.validationError (msgErrorOrdering ci hi mi))) ∧
    containsSeq (floatStr e) (msgDimensionThresholds e a) = true ∧
    containsSeq (floatStr a) (msgDimensionThresholds e a) = true ∧
    containsSeq (intStr ci) (msgErrorOrdering ci hi mi) = true ∧
    containsSeq (intStr hi) (msgErrorOrdering ci hi mi) = true ∧
    containsSeq (intStr mi) (msgErrorOrdering ci hi mi) = true := by
  have hval : validate_rules cfg =
      (if e ≤ a then
        Except.error (PyErr.validationError (msgDimensionThresholds e a))
      else if ci > hi ∧ hi > mi ∧ mi > 0 then Except.ok ()
      else Except.error (PyErr.validationError (msgErrorOrdering ci hi mi))) := by
    simp only [validate_rules, he, ha, hc, hh, hm]
  refine ⟨?_, ?_, ?_, ?_, ?_, ?_, ?_, ?_⟩
  · rw [hval]
    by_cases hea : e ≤ a
    · rw [if_pos hea]
      constructor
      · intro h; exact Except.noConfusion h
      · rintro ⟨hlt, _⟩; exact absurd hea (not_le.mpr hlt)
    · rw [if_neg hea]
      have hae : a < e := not_le.mp hea
      by_cases hch : ci > hi ∧ hi > mi ∧ mi > 0
      · rw [if_pos hch]
        exact ⟨fun _ => ⟨hae, hch⟩, fun _ => rfl⟩
      · rw [if_neg hch]
        constructor
        · intro h; exact Except.noConfusion h
        · rintro ⟨_, h2⟩; exact absurd h2 hch
  · intro hea
    rw [hval, if_pos hea]
  · intro hae hch
    rw [hval, if_neg (not_le.mpr hae), if_neg hch]
  · exact containsSeq_append_right _
      (containsSeq_append_right _
        (containsSeq_append_right _
          (containsSeq_suffix (floatStr e)
            (chars ("Invalid dimension score thresholds: excellent (")))))
  · exact containsSeq_append_right _
      (containsSeq_suffix (floatStr a)
        (chars ("Invalid dimension score thresholds: excellent (") ++ floatStr e ++
          chars (") must be > acceptable.min (")))
  · exact containsSeq_append_right _
      (containsSeq_append_right _
        (containsSeq_append_right _
          (containsSeq_append_right _
            (containsSeq_append_right _
              (containsSeq_suffix (intStr ci)
                (chars ("Invalid error count ordering: critical.min (")))))))
  · exact containsSeq_append_right _
      (containsSeq_append_right _
        (containsSeq_append_right _
          (containsSeq_suffix (intStr hi)
            (chars ("Invalid error count ordering: critical.min (") ++ intStr ci ++
              chars (") > high.min (")))))
  · exact containsSeq_append_right _
      (containsSeq_suffix (intStr mi)
        (chars ("Invalid error count ordering: critical.min (") ++ intStr ci ++
          chars (") > high.min (") ++ intStr hi ++ chars (") > medium.min (")))

/-- C2 witness: equal percentages are rejected with both values in the
message; an equal critical/high pair is rejected likewise; the
10/5/2 ordering with distinct percentages passes, returning unit. -/
theorem c2_validator_witness :
    validate_rules (Val.vdict [
      (chars ("dimension_scores"), Val.vdict [
        (chars ("thresholds"), Val.vdict [
          (chars ("excellent"), Val.vdict [(chars ("percentage"), Val.vfloat 90)]),
          (chars ("acceptable"), Val.vdict [(chars ("min_percentage"), Val.vfloat 90)])])]),
      (chars ("error_distribution"), Val.vdict [
        (chars ("thresholds"), Val.vdict [
          (chars ("critical"), Val.vdict [(chars ("min_count"), Val.vint 10)]),
          (chars ("high"), Val.vdict [(chars ("min_count"), Val.vint 5)]),
          (chars ("medium"), Val.vdict [(chars ("min_count"), Val.vint 2)])])])])
      = Except.error (PyErr.validationError (msgDimensionThresholds 90 90)) ∧
    validate_rules (Val.vdict [
      (chars ("dimension_scores"), Val.vdict [
        (chars ("thresholds"), Val.vdict [
          (chars ("excellent"), Val.vdict [(chars ("percentage"), Val.vfloat 95)]),
          (chars ("acceptable"), Val.vdict [(chars ("min_percentage"), Val.vfloat 90)])])]),
      (chars ("error_distribution"), Val.vdict [
        (chars ("thresholds"), Val.vdict [
          (chars ("critical"), Val.vdict [(chars ("min_count"), Val.vint 5)]),
          (chars ("high"), Val.vdict [(chars ("min_count"), Val.vint 5)]),
          (chars ("medium"), Val.vdict [(chars ("min_count"), Val.vint 2)])])])])
      = Except.error (PyErr.validationError (msgErrorOrdering 5 5 2)) ∧
    validate_rules (Val.vdict [
      (chars ("dimension_scores"), Val.vdict [
        (chars ("thresholds"), Val.vdict [
          (chars ("excellent"), Val.vdict [(chars ("percentage"), Val.vfloat 95)]),
          (chars ("acceptable"), Val.vdict [(chars ("min_percentage"), Val.vfloat 90)])])]),
      (chars ("error_distribution"), Val.vdict [
        (chars ("thresholds"), Val.vdict [
          (chars ("critical"), Val.vdict [(chars ("min_count"), Val.vint 10)]),
          (chars ("high"), Val.vdict [(chars ("min_count"), Val.vint 5)]),
          (chars ("medium"), Val.vdict [(chars ("min_count"), Val.vint 2)])])])])
      = Except.ok () := by
  refine ⟨?_, ?_, ?_⟩
  · have h := c2_validator
      (Val.vdict [
        (chars ("dimension_scores"), Val.vdict [
          (chars ("thresholds"), Val.vdict [
            (chars ("excellent"), Val.vdict [(chars ("percentage"), Val.vfloat 90)]),
            (chars ("acceptable"), Val.vdict [(chars ("min_percentage"), Val.vfloat 90)])])]),
        (chars ("error_distribution"), Val.vdict [
          (chars ("thresholds"), Val.vdict [
            (chars ("critical"), Val.vdict [(chars ("min_count"), Val.vint 10)]),
            (chars ("high"), Val.vdict [(chars ("min_count"), Val.vint 5)]),
            (chars ("medium"), Val.vdict [(chars ("min_count"), Val.vint 2)])])])])
      90 90 10 5 2 rfl rfl rfl rfl rfl
    exact h.2.1 (by norm_num)
  · have h := c2_validator
      (Val.vdict [
        (chars ("dimension_scores"), Val.vdict [
          (chars ("thresholds"), Val.vdict [
            (chars ("excellent"), Val.vdict [(chars ("percentage"), Val.vfloat 95)]),
            (chars ("acceptable"), Val.vdict [(chars ("min_percentage"), Val.vfloat 90)])])]),
        (chars ("error_distribution"), Val.vdict [
          (chars ("thresholds"), Val.vdict [
            (chars ("critical"), Val.vdict [(chars ("min_count"), Val.vint 5)]),
            (chars ("high"), Val.vdict [(chars ("min_count"), Val.vint 5)]),
            (chars ("medium"), Val.vdict [(chars ("min_count"), Val.vint 2)])])])])
      95 90 5 5 2 rfl rfl rfl rfl rfl
    exact h.2.2.1 (by norm_num) (by decide)
  · have h := c2_validator
      (Val.vdict [
        (chars ("dimension_scores"), Val.vdict [
          (chars ("thresholds"), Val.vdict [
            (chars ("excellent"), Val.vdict [(chars ("percentage"), Val.vfloat 95)]),
            (chars ("acceptable"), Val.vdict [(chars ("min_percentage"), Val.vfloat 90)])])]),
        (chars ("error_distribution"), Val.vdict [
          (chars ("thresholds"), Val.vdict [
            (chars ("critical"), Val.vdict [(chars ("min_count"), Val.vint 10)]),
            (chars ("high"), Val.vdict [(chars ("min_count"), Val.vint 5)]),
            (chars ("medium"), Val.vdict [(chars ("min_count"), Val.vint 2)])])])])
      95 90 10 5 2 rfl rfl rfl rfl rfl
    exact h.1.mpr ⟨by norm_num, by decide, by decide, by decide⟩

-- Claim C10: validator coercion ordering.

/-- C10 (corrected): the bare (path-less) coercion exception is raised
exactly where the coercion sits in the source order — the two
percentage fields are coerced before invariant 1, so their failures
preempt both invariants; but the three `min_count`s are coerced only
after invariant 1 passes, so a config with a non-coercible `min_count`
and violated percentage ordering raises the invariant-1
`ValidationError` first, not the coercion exception. -/
theorem c10_coercion_order (cfg : Val) :
    (pyFloat (vrExcellentPct cfg) = Option.none →
      validate_rules cfg = Except.error PyErr.typeError) ∧
    (∀ e : ℚ, pyFloat (vrExcellentPct cfg) = some e →
      pyFloat (vrAcceptableMin cfg) = Option.none →
      validate_rules cfg = Except.error PyErr.typeError) ∧
    (∀ e a : ℚ, pyFloat (vrExcellentPct cfg) = some e →
      pyFloat (vrAcceptableMin cfg) = some a → e ≤ a →
      validate_rules cfg = Except.error (PyErr.validationError (msgDimensionThresholds e a))) ∧
    (∀ e a : ℚ, pyFloat (vrExcellentPct cfg) = some e →
      pyFloat (vrAcceptableMin cfg) = some a → a < e →
      (pyInt (vrCriticalMin cfg) = Option.none ∨
       (∃ ci, pyInt (vrCriticalMin cfg) = some ci ∧ pyInt (vrHighMin cfg) = Option.none) ∨
       (∃ ci hi, pyInt (vrCriticalMin cfg) = some ci ∧ pyInt (vrHighMin cfg) = some hi ∧
         pyInt (vrMediumMin cfg) = Option.none)) →
      validate_rules cfg = Except.error PyErr.typeError) := by
  refine ⟨?_, ?_, ?_, ?_⟩
  · intro h
    simp only [validate_rules, h]
  · intro e he hA
    simp only [validate_rules, he, hA]
  · intro e a he ha hea
    simp only [validate_rules, he, ha]
    rw [if_pos hea]
  · intro e a he ha hae hdisj
    simp only [validate_rules, he, ha]
    rw [if_neg (not_le.mpr hae)]
    rcases hdisj with h1 | ⟨ci, h1, h2⟩ | ⟨ci, hi, h1, h2, h3⟩
    · simp only [h1]
    · simp only [h1, h2]
    · simp only [h1, h2, h3]

/-- C10 witness: with distinct in-order percentages and a `None`
`critical.min_count`, the run dies on the bare coercion exception when
invariant 1 passes. -/
theorem c10_coercion_order_witness :
    validate_rules (Val.vdict [
      (chars ("dimension_scores"), Val.vdict [
        (chars ("thresholds"), Val.vdict [
          (chars ("excellent"), Val.vdict [(chars ("percentage"), Val.vfloat 95)]),
          (chars ("acceptable"), Val.vdict [(chars ("min_percentage"), Val.vfloat 90)])])]),
      (chars ("error_distribution"), Val.vdict [
        (chars ("thresholds"), Val.vdict [
          (chars ("critical"), Val.vdict [(chars ("min_count"), Val.vnone)]),
          (chars ("high"), Val.vdict [(chars ("min_count"), Val.vint 5)]),
          (chars ("medium"), Val.vdict [(chars ("min_count"), Val.vint 2)])])])])
      = Except.error PyErr.typeError := by
  have h := c10_coercion_order (Val.vdict [
      (chars ("dimension_scores"), Val.vdict [
        (chars ("thresholds"), Val.vdict [
          (chars ("excellent"), Val.vdict [(chars ("percentage"), Val.vfloat 95)]),
          (chars ("acceptable"), Val.vdict [(chars ("min_percentage"), Val.vfloat 90)])])]),
      (chars ("error_distribution"), Val.vdict [
        (chars ("thresholds"), Val.vdict [
          (chars ("critical"), Val.vdict [(chars ("min_count"), Val.vnone)]),
          (chars ("high"), Val.vdict [(chars ("min_count"), Val.vint 5)]),
          (chars ("medium"), Val.vdict [(chars ("min_count"), Val.vint 2)])])])])
  exact h.2.2.2 95 90 rfl rfl (by norm_num) (Or.inl rfl)

/-- C10 counterexample: `critical.min_count` is absent (`None`), yet
with `excellent.percentage = 50 ≤ acceptable.min_percentage = 60` the
validator raises the invariant-1 `ValidationError` — an invariant IS
evaluated, and no bare pre-invariant coercion exception occurs, contrary
to the claim. -/
theorem c10_coercion_order_counterexample :
    validate_rules (Val.vdict [
      (chars ("dimension_scores"), Val.vdict [
        (chars ("thresholds"), Val.vdict [
          (chars ("excellent"), Val.vdict [(chars ("percentage"), Val.vfloat 50)]),
          (chars ("acceptable"), Val.vdict [(chars ("min_percentage"), Val.vfloat 60)])])]),
      (chars ("error_distribution"), Val.vdict [
        (chars ("thresholds"), Val.vdict [
          (chars ("critical"), Val.vdict [(chars ("min_count"), Val.vnone)]),
          (chars ("high"), Val.vdict [(chars ("min_count"), Val.vint 5)]),
          (chars ("medium"), Val.vdict [(chars ("min_count"), Val.vint 2)])])])])
      = Except.error (PyErr.validationError (msgDimensionThresholds 50 60)) ∧
    (∀ s : Str, PyErr.validationError s ≠ PyErr.typeError) := by
  exact ⟨rfl, fun s h => PyErr.noConfusion h⟩
